import Mathlib

/-!
Shallow embedding of the statistics / prediction engine of the ARG-STATS
repository (src/app.py, src/api.py, src/db_manager.py).

The SQLite database is modelled as four lists of rows (one per table, in
rowid order).  SQL queries are modelled by the list transformations they
denote; `GROUP BY` output is modelled in first-appearance key order and a
subsequent `ORDER BY <metric> DESC` (an unspecified tie order in SQLite) is
modelled by a stable merge sort on the metric.  Python `dict`s are modelled
as association lists, `dict.get(k, d)` as `alookupD`, and `enumerate`-based
rank assignment as `enumRanks`.

Arithmetic: the Python code computes scores with float division and `int()`
truncation, e.g. `int(((30 - rm_h) + (30 - ra_v)) / 58 * 100)`.  We model
these expressions with exact rationals and truncation toward zero (`pyint`).
For the integer inputs occurring here this is exact: the value `s/58*100`
(resp. `/87`, `/143`) is at distance at least `1/58` (resp. `1/87`, `1/143`)
from any integer it does not hit exactly, hit integers arise only from
subexpressions that IEEE doubles represent exactly, and the float rounding
error is many orders of magnitude below those gaps, so `int()` of the float
equals the rational truncation.

Dates and times: `adjust_utc_to_arg` is modelled down to CPython 3.11's C
implementation of `datetime.fromisoformat` (basic, compressed and ISO-week
dates, a free one-character separator, `HH[:MM[:SS]]` with compressed and
fractional forms, and `Z` or signed offsets), CPython's proleptic Gregorian
calendar (`_ymd2ord`/`_ord2ymd`), and `strftime("%Y-%m-%d %H:%M:%S")` as
rendered on Linux (glibc), where `%Y` is not zero padded (year 5 renders as
`5`).  Fractional seconds and the UTC offset are parsed and validated but
carried no further: subtracting the integral `timedelta(hours=3)` leaves
the microseconds unchanged, the output format does not render them, aware
arithmetic acts on the civil fields only, and the `datetime.min` underflow
threshold is unaffected (the fraction is nonnegative and below one second),
so no output of `adjust_utc_to_arg` depends on either value.
-/

/-- Python `int(x)` on a real value: truncation toward zero. -/
def pyint (q : ℚ) : ℤ :=
  if q < 0 then -⌊-q⌋ else ⌊q⌋

/-- Python `round(x, 2)` (round-half-to-even at the second decimal),
modelled exactly on rationals. -/
def roundHalfEven (q : ℚ) : ℤ :=
  let f := ⌊q⌋
  let frac := q - (f : ℚ)
  if frac < 1/2 then f
  else if 1/2 < frac then f + 1
  else if f % 2 = 0 then f else f + 1

/-- Python `round(x, 2)` as used for the per-match averages. -/
def pyRound2 (q : ℚ) : ℚ := (roundHalfEven (q * 100) : ℚ) / 100

/-- Association-list lookup (first binding wins), modelling Python `dict`
lookup for maps whose keys are unique. -/
def alookup [DecidableEq κ] (k : κ) : List (κ × α) → Option α
  | [] => none
  | p :: ps => if p.1 = k then some p.2 else alookup k ps

/-- Python `d.get(k, dflt)`. -/
def alookupD [DecidableEq κ] (m : List (κ × α)) (k : κ) (dflt : α) : α :=
  (alookup k m).getD dflt

/-- First-appearance deduplication: models the key order of a SQL `GROUP BY`
(resp. of a Python dict built by enumeration). -/
def dedupFirst [DecidableEq α] (l : List α) : List α :=
  l.foldl (fun acc k => if acc.contains k then acc else acc ++ [k]) []

/-- Python dict insertion: an existing key keeps its position and gets the
new value, a new key is appended. -/
def dictInsert [DecidableEq κ] (m : List (κ × α)) (k : κ) (v : α) : List (κ × α) :=
  if (m.map Prod.fst).contains k then
    m.map (fun p => if p.1 = k then (k, v) else p)
  else m ++ [(k, v)]

/-! ## Event Store rows (db_manager.py table schemas) -/

/-- Row of the `matches` table (`id` is the primary key). -/
structure MatchRow where
  id : String
  date : String
  finished : Bool
  tournament : String
  gameweek : String
  id_home_team : String
  home_team : String
  id_away_team : String
  away_team : String
  score : Option String
  referee : Option String
deriving Repr, DecidableEq

/-- Row of the `player_match_details` table
(primary key `(match_id, player_id)`). -/
structure PMDRow where
  match_id : String
  player_id : String
  team_id : String
  player_name : String
  position : String
  shirt_number : String
  is_starter : Bool
  minutes_played : ℤ
  rating : ℚ
  role_x : Option ℚ
  role_y : Option ℚ
  fouls_committed : ℤ
  fouls_received : ℤ
deriving Repr, DecidableEq

/-- Row of the `shots` table (the autoincrement `shot_id` is the list
position).  `on_target` models `isOnTarget and not isBlocked`; a Python
`None` in that expression is stored as SQL NULL, which behaves like `false`
under every `on_target = 1` filter, so it is collapsed to `false` here. -/
structure ShotRow where
  match_id : String
  player_id : String
  player_name : String
  team_id : String
  minute : String
  on_target : Bool
  shot_type : String
  situation : String
  outcome : String
  inside_box : Bool
deriving Repr, DecidableEq

/-- Row of the `cards` table (autoincrement `card_id` is the list position). -/
structure CardRow where
  match_id : String
  player_id : String
  player_name : String
  team_id : String
  card_type : String
  minute : String
deriving Repr, DecidableEq

/-- The whole SQLite database, rows in rowid order. -/
structure DB where
  «matches» : List MatchRow
  player_match_details : List PMDRow
  shots : List ShotRow
  cards : List CardRow
deriving Repr, DecidableEq

def DB.empty : DB := ⟨[], [], [], []⟩

/-! ## Ranking Engine (app.py, get_team_stats_core and helpers) -/

/-- One output entry of `get_team_stats_core` (the dicts built by
`structure(...)` and by the windowed branch). -/
structure StatRow where
  id : String
  name : String
  total : ℤ
  pj : ℕ
  avg : ℚ
deriving Repr, DecidableEq

/-- Models `SELECT DISTINCT id_home_team as id, home_team as name FROM
matches` fed into a dict comprehension: key set and order are the first
appearances of home-team ids (values are display names). -/
def teams_map (db : DB) : List (String × String) :=
  db.«matches».foldl (fun m r => dictInsert m r.id_home_team r.home_team) []

/-- The `WHERE` fragment selected by `filter_type` for shot queries
(`target` keeps `on_target = 1`, `long` keeps `inside_box = 0`). -/
def shotFilter (filter_type : String) (s : ShotRow) : Bool :=
  if filter_type = "target" then s.on_target
  else if filter_type = "long" then !s.inside_box
  else true

/-- Models the inner join `... JOIN matches m ON e.match_id = m.id`
(match ids are unique, so the first matching row is the row). -/
def joinMatch (db : DB) (mid : String) : Option MatchRow :=
  db.«matches».find? (fun m => m.id = mid)

/-- Models `CASE WHEN e.team_id = m.id_home_team THEN m.id_away_team ELSE
m.id_home_team END`. -/
def oppOf (m : MatchRow) (tid : String) : String :=
  if tid = m.id_home_team then m.id_away_team else m.id_home_team

/-- Models `SELECT key, <sum of val>, COUNT(DISTINCT mid) ... GROUP BY key`
over a row list, groups in first-appearance order. -/
def aggRows (rows : List α) (key : α → String) (mid : α → String) (val : α → ℤ) :
    List (String × ℤ × ℕ) :=
  (dedupFirst (rows.map key)).map (fun k =>
    let grp := rows.filter (fun r => key r = k)
    (k, (grp.map val).sum, (dedupFirst (grp.map mid)).length))

/-- Pairs each event row with the opposing team id of its match, dropping
rows whose match id has no `matches` row (inner-join semantics). -/
def withOpp (db : DB) (rows : List α) (mid : α → String) (tid : α → String) :
    List (α × String) :=
  rows.filterMap (fun r => (joinMatch db (mid r)).map (fun m => (r, oppOf m (tid r))))

/-- The unrounded `ORDER BY` metric of the global (un-windowed) queries:
the raw total, or `CAST(total AS FLOAT) / pj` before Python rounding. -/
def sqlMetric (order_by : String) (t : String × ℤ × ℕ) : ℚ :=
  if order_by = "total" then (t.2.1 : ℚ) else (t.2.1 : ℚ) / (t.2.2 : ℚ)

/-- Models `structure(data)` in `get_team_stats_core`: resolve the display
name and round the average to two decimals. -/
def structureRow (db : DB) (t : String × ℤ × ℕ) : StatRow :=
  { id := t.1, name := alookupD (teams_map db) t.1 "N/A",
    total := t.2.1, pj := t.2.2, avg := pyRound2 ((t.2.1 : ℚ) / (t.2.2 : ℚ)) }

/-- Global (no-window) branch of `get_team_stats_core`: builds the made and
against aggregation row lists for one category before ordering. -/
def globalAgg (db : DB) (category filter_type : String) :
    List (String × ℤ × ℕ) × List (String × ℤ × ℕ) :=
  if category = "shots" then
    let rows := db.shots.filter (shotFilter filter_type)
    (aggRows rows (·.team_id) (·.match_id) (fun _ => 1),
     aggRows (withOpp db rows (·.match_id) (·.team_id))
       (·.2) (·.1.match_id) (fun _ => 1))
  else if category = "headers" then
    let rows := db.shots.filter (fun s => s.shot_type = "Header")
    (aggRows rows (·.team_id) (·.match_id) (fun _ => 1),
     aggRows (withOpp db rows (·.match_id) (·.team_id))
       (·.2) (·.1.match_id) (fun _ => 1))
  else if category = "cards" then
    (aggRows db.cards (·.team_id) (·.match_id) (fun _ => 1),
     aggRows (withOpp db db.cards (·.match_id) (·.team_id))
       (·.2) (·.1.match_id) (fun _ => 1))
  else if category = "fouls" then
    (aggRows db.player_match_details (·.team_id) (·.match_id) (·.fouls_committed),
     aggRows db.player_match_details (·.team_id) (·.match_id) (·.fouls_received))
  else ([], [])

/-- Finished matches in which a team took part (`(id_home_team = ? OR
id_away_team = ?) AND finished = 1`). -/
def finishedMatchesOf (db : DB) (tid : String) : List MatchRow :=
  db.«matches».filter (fun m => (m.id_home_team = tid || m.id_away_team = tid) && m.finished)

/-- Ids of the team's last `n` finished matches
(`ORDER BY date DESC LIMIT n`, dates compared as TEXT). -/
def windowIds (db : DB) (tid : String) (n : ℕ) : List String :=
  (((finishedMatchesOf db tid).mergeSort (fun a b => decide (b.date ≤ a.date))).take n).map (·.id)

/-- Windowed per-team totals (made, against) for one category: the
`COUNT(*)`/`SUM(...)` queries over `match_id IN (window)`. -/
def windowTotals (db : DB) (category filter_type : String) (tid : String)
    (ids : List String) : ℤ × ℤ :=
  if category = "shots" then
    (((db.shots.filter (fun s =>
        s.team_id = tid && ids.contains s.match_id && shotFilter filter_type s)).length : ℤ),
     (((withOpp db db.shots (·.match_id) (·.team_id)).filter (fun p =>
        p.2 = tid && ids.contains p.1.match_id && shotFilter filter_type p.1)).length : ℤ))
  else if category = "headers" then
    (((db.shots.filter (fun s =>
        s.team_id = tid && s.shot_type = "Header" && ids.contains s.match_id)).length : ℤ),
     (((withOpp db db.shots (·.match_id) (·.team_id)).filter (fun p =>
        p.2 = tid && p.1.shot_type = "Header" && ids.contains p.1.match_id)).length : ℤ))
  else if category = "cards" then
    (((db.cards.filter (fun c => c.team_id = tid && ids.contains c.match_id)).length : ℤ),
     (((withOpp db db.cards (·.match_id) (·.team_id)).filter (fun p =>
        p.2 = tid && ids.contains p.1.match_id)).length : ℤ))
  else if category = "fouls" then
    (((db.player_match_details.filter (fun p =>
        p.team_id = tid && ids.contains p.match_id)).map (·.fouls_committed)).sum,
     ((db.player_match_details.filter (fun p =>
        p.team_id = tid && ids.contains p.match_id)).map (·.fouls_received)).sum)
  else (0, 0)

/-- One windowed result entry for a team (both directions). -/
def windowEntry (db : DB) (category filter_type : String) (limit : ℕ) (tid : String) :
    StatRow × StatRow :=
  let name := alookupD (teams_map db) tid "N/A"
  let ids := windowIds db tid limit
  let pj := ids.length
  if pj = 0 then
    ({ id := tid, name := name, total := 0, pj := 0, avg := 0 },
     { id := tid, name := name, total := 0, pj := 0, avg := 0 })
  else
    let t := windowTotals db category filter_type tid ids
    ({ id := tid, name := name, total := t.1, pj := pj,
       avg := if 0 < pj then pyRound2 ((t.1 : ℚ) / (pj : ℚ)) else 0 },
     { id := tid, name := name, total := t.2, pj := pj,
       avg := if 0 < pj then pyRound2 ((t.2 : ℚ) / (pj : ℚ)) else 0 })

/-- The sort key of the windowed branch (`x['total']` or the already
rounded `x['avg']`), used with `reverse=True`. -/
def pySortMetric (order_by : String) (e : StatRow) : ℚ :=
  if order_by = "total" then (e.total : ℚ) else e.avg

/-- The unified team statistics query `get_team_stats_core(category,
filter_type, order_by, limit)`, returning the made and against leaderboards.
A `limit` of `None` or `0` is falsy in Python and selects the global branch.
Categories outside the four dispatched ones are modelled as empty results
(the source would raise `NameError` there; no caller passes them). -/
def get_team_stats_core (db : DB) (category filter_type order_by : String)
    (limit : Option ℕ) : List StatRow × List StatRow :=
  match limit with
  | none | some 0 =>
    let (made, against) := globalAgg db category filter_type
    ((made.mergeSort (fun a b =>
        decide (sqlMetric order_by b ≤ sqlMetric order_by a))).map (structureRow db),
     (against.mergeSort (fun a b =>
        decide (sqlMetric order_by b ≤ sqlMetric order_by a))).map (structureRow db))
  | some (n + 1) =>
    let entries := (teams_map db).map (fun p => windowEntry db category filter_type (n + 1) p.1)
    ((entries.map Prod.fst).mergeSort (fun a b =>
        decide (pySortMetric order_by b ≤ pySortMetric order_by a)),
     (entries.map Prod.snd).mergeSort (fun a b =>
        decide (pySortMetric order_by b ≤ pySortMetric order_by a)))

/-- Rank maps `{team id: 1-based position}` used by the predictor
(`get_rankings_from_stats`). -/
def enumRanks (l : List StatRow) : List (String × ℕ) :=
  l.enum.map (fun p => (p.2.id, p.1 + 1))

/-- Helper for the predictor: made/against rank position dictionaries
(`get_rankings_from_stats`, always un-windowed). -/
def get_rankings_from_stats (db : DB) (category filter_type order_by : String) :
    List (String × ℕ) × List (String × ℕ) :=
  let (made, against) := get_team_stats_core db category filter_type order_by none
  (enumRanks made, enumRanks against)

/-! ## Referee rankings (app.py, get_referee_rankings) -/

/-- Per-referee total cards over finished matches: `matches LEFT JOIN cards`
grouped by referee (the referee column is nullable). -/
def refereeCardTotals (db : DB) : List (Option String × ℤ) :=
  let ms := db.«matches».filter (·.finished)
  (dedupFirst (ms.map (·.referee))).map (fun r =>
    (r, ((ms.filter (fun m => m.referee = r)).map (fun m =>
          ((db.cards.filter (fun c => c.match_id = m.id)).length : ℤ))).sum))

/-- Per-referee total fouls over finished matches:
`matches LEFT JOIN player_match_details` grouped by referee. -/
def refereeFoulTotals (db : DB) : List (Option String × ℤ) :=
  let ms := db.«matches».filter (·.finished)
  (dedupFirst (ms.map (·.referee))).map (fun r =>
    (r, ((ms.filter (fun m => m.referee = r)).map (fun m =>
          ((db.player_match_details.filter (fun p => p.match_id = m.id)).map
            (·.fouls_committed)).sum)).sum))

/-- Positions after `ORDER BY total DESC` and `enumerate`. -/
def refEnumRanks (l : List (Option String × ℤ)) : List (Option String × ℕ) :=
  ((l.mergeSort (fun a b => decide (b.2 ≤ a.2))).enum).map (fun p => (p.2.1, p.1 + 1))

/-- Referee rank dictionaries `({referee: cards rank}, {referee: fouls
rank})` (`get_referee_rankings`). -/
def get_referee_rankings (db : DB) : List (Option String × ℕ) × List (Option String × ℕ) :=
  (refEnumRanks (refereeCardTotals db), refEnumRanks (refereeFoulTotals db))

/-! ## Prediction Engine (app.py, get_prediction_logic) -/

/-- The dictionary returned by `get_prediction_logic`. -/
structure PredResult where
  h : ℤ
  v : ℤ
  gen : ℤ
  rm_h : ℕ
  ra_h : ℕ
  rm_v : ℕ
  ra_v : ℕ
  ref_rank : Option ℕ
deriving Repr, DecidableEq

/-- Python truthiness of the `referee` argument (`None` and `""` are falsy). -/
def refereeTruthy : Option String → Bool
  | none => false
  | some s => !(s = "")

/-- Python truthiness of the `ref_ranks` value (`None` and `{}` are falsy). -/
def refMapTruthy : Option (List (Option String × ℕ)) → Bool
  | none => false
  | some [] => false
  | some (_ :: _) => true

/-- The prediction operation `get_prediction_logic(home_id, away_id,
category, filter_type, referee, precalc_ranks)`.  Rank lookups fall back to
15 for absent entities; with a truthy referee and category in
`{cards, fouls}` the referee rank is folded in (dividing by 87 per side and
by 143 for the combined score), otherwise the two-term formula over 58 is
used and the combined score is the integer floor of the mean. -/
def get_prediction_logic (db : DB) (home_id away_id : String)
    (category filter_type : String) (referee : Option String)
    (precalc_ranks : Option (List (String × ℕ) × List (String × ℕ) ×
      Option (List (Option String × ℕ)))) : PredResult :=
  let mar := match precalc_ranks with
    | some pr => pr
    | none =>
      let (m, a) := get_rankings_from_stats db category filter_type "total"
      (m, a, none)
  let m_ranks := mar.1
  let a_ranks := mar.2.1
  let ref_ranks0 := mar.2.2
  let rm_h : ℕ := alookupD m_ranks home_id 15
  let ra_h : ℕ := alookupD a_ranks home_id 15
  let rm_v : ℕ := alookupD m_ranks away_id 15
  let ra_v : ℕ := alookupD a_ranks away_id 15
  if refereeTruthy referee && (category = "cards" || category = "fouls") then
    let ref_ranks := if refMapTruthy ref_ranks0 then ref_ranks0.getD [] else
      (if category = "cards" then (get_referee_rankings db).1
       else (get_referee_rankings db).2)
    let ref_val : ℕ := alookupD ref_ranks (some (referee.getD "")) 15
    let h_s := pyint (((30 - (rm_h : ℚ)) + (30 - (ra_v : ℚ)) + (30 - (ref_val : ℚ))) / 87 * 100)
    let v_s := pyint (((30 - (rm_v : ℚ)) + (30 - (ra_h : ℚ)) + (30 - (ref_val : ℚ))) / 87 * 100)
    let gen := pyint (((30 - (rm_h : ℚ)) + (30 - (ra_h : ℚ)) + (30 - (rm_v : ℚ))
                       + (30 - (ra_v : ℚ)) + (30 - (ref_val : ℚ))) / 143 * 100)
    { h := h_s, v := v_s, gen := gen, rm_h := rm_h, ra_h := ra_h,
      rm_v := rm_v, ra_v := ra_v, ref_rank := some ref_val }
  else
    let h_s := pyint (((30 - (rm_h : ℚ)) + (30 - (ra_v : ℚ))) / 58 * 100)
    let v_s := pyint (((30 - (rm_v : ℚ)) + (30 - (ra_h : ℚ))) / 58 * 100)
    { h := h_s, v := v_s, gen := Int.fdiv (h_s + v_s) 2, rm_h := rm_h,
      ra_h := ra_h, rm_v := rm_v, ra_v := ra_v, ref_rank := none }

/-! ## Kickoff-time normalization (api.py, adjust_utc_to_arg)

The Python code parses the upstream UTC timestamp with
`datetime.fromisoformat` (after replacing `"Z"` by `"+00:00"`), subtracts
`timedelta(hours=3)` and formats with `strftime("%Y-%m-%d %H:%M:%S")`; any
exception (unparseable string, or year underflow in the subtraction)
returns the input unchanged.  The calendar arithmetic models CPython's
proleptic-Gregorian ordinal functions `_ymd2ord` / `_ord2ymd`
word-for-word.  `fromisoformat` is modelled for the timestamp shape the
upstream feed and this code path use: `YYYY-MM-DD`, a `T` or space
separator, `HH:MM:SS`, and an optional `+00:00` offset. -/

/-- CPython `_is_leap(year)`. -/
def isLeap (y : ℤ) : Bool := y % 4 = 0 && (y % 100 ≠ 0 || y % 400 = 0)

/-- CPython `_DAYS_BEFORE_MONTH` table. -/
def daysBeforeMonth (m : ℤ) : ℤ :=
  if m = 1 then 0 else if m = 2 then 31 else if m = 3 then 59
  else if m = 4 then 90 else if m = 5 then 120 else if m = 6 then 151
  else if m = 7 then 181 else if m = 8 then 212 else if m = 9 then 243
  else if m = 10 then 273 else if m = 11 then 304 else 334

/-- CPython `_DAYS_IN_MONTH` table (non-leap February). -/
def daysInMonthTbl (m : ℤ) : ℤ :=
  if m = 2 then 28 else if m = 4 ∨ m = 6 ∨ m = 9 ∨ m = 11 then 30 else 31

/-- CPython `_days_in_month(year, month)`. -/
def daysInMonth (y m : ℤ) : ℤ :=
  if m = 2 ∧ isLeap y then 29 else daysInMonthTbl m

/-- CPython `_days_before_year(year)` (Lean's `/` on `ℤ` rounds toward
negative infinity for positive divisors, like Python's `//`). -/
def daysBeforeYear (y : ℤ) : ℤ :=
  365 * (y - 1) + (y - 1) / 4 - (y - 1) / 100 + (y - 1) / 400

/-- CPython `_ymd2ord(year, month, day)`: proleptic Gregorian ordinal,
with `0001-01-01` as day 1. -/
def toordinal (y m d : ℤ) : ℤ :=
  daysBeforeYear y + daysBeforeMonth m + (if 2 < m ∧ isLeap y then 1 else 0) + d

/-- CPython `_ord2ymd(n)`: year, month, day from a proleptic Gregorian
ordinal (`(n + 50) >> 5` is written as division by 32). -/
def ord2ymd (n0 : ℤ) : ℤ × ℤ × ℤ :=
  let n := n0 - 1
  let n400 := n / 146097
  let n := n % 146097
  let n100 := n / 36524
  let n := n % 36524
  let n4 := n / 1461
  let n := n % 1461
  let n1 := n / 365
  let n := n % 365
  let year := n400 * 400 + 1 + n100 * 100 + n4 * 4 + n1
  if n1 = 4 ∨ n100 = 4 then (year - 1, 12, 31)
  else
    let leap := n1 = 3 ∧ (n4 ≠ 24 ∨ n100 = 3)
    let month := (n + 50) / 32
    let preceding := daysBeforeMonth month + (if 2 < month ∧ leap then 1 else 0)
    if n < preceding then
      let month' := month - 1
      let preceding' := preceding -
        (daysInMonthTbl month' + (if month' = 2 ∧ leap then 1 else 0))
      (year, month', n - preceding' + 1)
    else
      (year, month, n - preceding + 1)

/-- A Python `datetime` value (the civil fields; the code path only ever
carries a UTC offset, which `strftime("%Y-%m-%d %H:%M:%S")` ignores). -/
structure PyDateTime where
  year : ℤ
  month : ℤ
  day : ℤ
  hour : ℤ
  minute : ℤ
  second : ℤ
deriving Repr, DecidableEq

/-- Seconds since the instant `0001-01-01 00:00:00` minus one day (the
ordinal of a date times 86400 plus the seconds of day); the timeline on
which `datetime - timedelta` arithmetic is defined. -/
def dtToSeconds (dt : PyDateTime) : ℤ :=
  toordinal dt.year dt.month dt.day * 86400
    + dt.hour * 3600 + dt.minute * 60 + dt.second

/-- Rebuild a `datetime` from the seconds timeline (CPython normalizes the
day/seconds split and calls `_ord2ymd`). -/
def dtFromSeconds (t : ℤ) : PyDateTime :=
  let days := t / 86400
  let sod := t % 86400
  let ymd := ord2ymd days
  { year := ymd.1, month := ymd.2.1, day := ymd.2.2,
    hour := sod / 3600, minute := sod % 3600 / 60, second := sod % 60 }

/-- Digit value of a character, if it is a decimal digit. -/
def digitVal (c : Char) : Option ℤ :=
  if c.isDigit then some ((c.toNat : ℤ) - 48) else none

/-- Two-digit number from two digit characters. -/
def num2 (a b : Char) : Option ℤ :=
  match digitVal a, digitVal b with
  | some x, some y => some (10 * x + y)
  | _, _ => none

/-- Four-digit number from four digit characters. -/
def num4 (a b c d : Char) : Option ℤ :=
  match num2 a b, num2 c d with
  | some x, some y => some (100 * x + y)
  | _, _ => none

/-- CPython `parse_digits(p, var, n)`: exactly `n` ASCII digits, returning
the value and the rest of the input. -/
def parseDigits : ℕ → List Char → Option (ℤ × List Char)
  | 0, cs => some (0, cs)
  | _ + 1, [] => none
  | n + 1, c :: cs =>
    match digitVal c with
    | none => none
    | some d =>
      match parseDigits n cs with
      | none => none
      | some (v, r) => some (d * (10 : ℤ) ^ n + v, r)

/-- CPython `_find_isoformat_datetime_separator` (3.11): position where the
date portion ends; the character there (if any) is the free-form separator. -/
def findIsoSep (cs : List Char) : Option ℕ :=
  let n := cs.length
  if n = 7 then some 7
  else if cs.getD 4 '*' = '-' then
    if cs.getD 5 '*' = 'W' then
      if n < 8 then none
      else if 8 < n ∧ cs.getD 8 '*' = '-' then
        if n = 9 then none
        else if 10 < n ∧ (cs.getD 10 '*').isDigit then some 8
        else some 10
      else some 8
    else some 10
  else if cs.getD 4 '*' = 'W' then
    let idx := 7 + ((cs.drop 7).takeWhile Char.isDigit).length
    if idx < 9 then some idx
    else if idx % 2 = 0 then some 7
    else some 8
  else some 8

/-- CPython `_isoweek1monday(year)`. -/
def isoweek1monday (year : ℤ) : ℤ :=
  let firstday := toordinal year 1 1
  let firstweekday := (firstday + 6) % 7
  let week1monday := firstday - firstweekday
  if 3 < firstweekday then week1monday + 7 else week1monday

/-- CPython `_isoweek_to_gregorian(year, week, day)` (week 53 only for ISO
years starting Thursday, or leap years starting Wednesday). -/
def isoWeekToGregorian (year week day : ℤ) : Option (ℤ × ℤ × ℤ) :=
  if ¬ (1 ≤ year ∧ year ≤ 9999) then none
  else
    let fw := toordinal year 1 1 % 7
    if ¬ ((0 < week ∧ week < 53) ∨
        (week = 53 ∧ (fw = 4 ∨ (fw = 3 ∧ isLeap year)))) then none
    else if ¬ (0 < day ∧ day < 8) then none
    else some (ord2ymd (isoweek1monday year + (week - 1) * 7 + (day - 1)))

/-- CPython `parse_isoformat_date`: `YYYY-MM-DD` / `YYYYMMDD` and the ISO
week forms `YYYY-Www[-D]` / `YYYYWww[D]`, with the dash-consistency rule. -/
def parseIsoDate (ds : List Char) : Option (ℤ × ℤ × ℤ) :=
  match parseDigits 4 ds with
  | none => none
  | some (year, r1) =>
    let hasSep := r1.head? = some '-'
    let r2 := if hasSep then r1.tail else r1
    match r2 with
    | 'W' :: r3 =>
      match parseDigits 2 r3 with
      | none => none
      | some (week, r4) =>
        match r4 with
        | [] => isoWeekToGregorian year week 1
        | _ =>
          if (r4.head? = some '-') ≠ hasSep then none
          else
            let r5 := if hasSep then r4.tail else r4
            match parseDigits 1 r5 with
            | none => none
            | some (dayno, r6) =>
              if r6 = [] then isoWeekToGregorian year week dayno else none
    | _ =>
      match parseDigits 2 r2 with
      | none => none
      | some (mon, r3) =>
        if (r3.head? = some '-') ≠ hasSep then none
        else
          let r4 := if hasSep then r3.tail else r3
          match parseDigits 2 r4 with
          | none => none
          | some (day, r5) =>
            if r5 = [] then some (year, mon, day) else none

/-- Tail of C `parse_hh_mm_ss_ff`: the fraction. The first `min 6 |r|`
characters must be digits (the microsecond value, discarded — see the
module comment); at the first non-digit after them C returns the dangling
code instead, which is only legal when a time zone follows. -/
def hmsFrac (h m s : ℤ) (r : List Char) : Option (ℤ × ℤ × ℤ × Bool) :=
  if (r.take 6).all Char.isDigit then
    some (h, m, s, ! (r.drop 6).all Char.isDigit)
  else none

/-- C `parse_hh_mm_ss_ff` on the portion `ps` before the time-zone marker;
`hasAfter` says whether a marker follows the portion.  The returned flag is
C's nonzero return: the portion ended one token short and a dangling byte
was consumed (only legal when a time zone follows; C consumes a single
byte, so a multi-byte character there leaves stray bytes and fails). -/
def parseHMSF (ps : List Char) (hasAfter : Bool) : Option (ℤ × ℤ × ℤ × Bool) :=
  match parseDigits 2 ps with
  | none => none
  | some (h, r1) =>
    match r1 with
    | [] => some (h, 0, 0, hasAfter)
    | [c] => if c.toNat ≤ 127 then some (h, 0, 0, true) else none
    | c1 :: r2 =>
      if c1 = '.' ∨ c1 = ',' then hmsFrac h 0 0 r2
      else
        let hasSep := c1 = ':'
        let q1 := if hasSep then r2 else c1 :: r2
        match parseDigits 2 q1 with
        | none => none
        | some (m, r3) =>
          match r3 with
          | [] => some (h, m, 0, hasAfter)
          | [c] => if c.toNat ≤ 127 then some (h, m, 0, true) else none
          | c2 :: r4 =>
            if c2 = '.' ∨ c2 = ',' then hmsFrac h m 0 r4
            else
              match (if hasSep then (if c2 = ':' then some r4 else none)
                     else some (c2 :: r4)) with
              | none => none
              | some q2 =>
                match parseDigits 2 q2 with
                | none => none
                | some (s, r5) =>
                  match r5 with
                  | [] => some (h, m, s, hasAfter)
                  | [c] => if c.toNat ≤ 127 then some (h, m, s, true) else none
                  | c3 :: r6 =>
                    if c3 = '.' ∨ c3 = ',' then hmsFrac h m s r6
                    else if hasSep then
                      if c3 = ':' then hmsFrac h m s r6 else none
                    else hmsFrac h m s (c3 :: r6)

/-- C `parse_isoformat_time`: time-of-day before the first `Z`/`+`/`-`, then
an optional time zone, which must be `Z` at the very end or a sign followed
by a flush `parse_hh_mm_ss_ff` offset strictly below 24 hours.  The offset
is validated and discarded (see the module comment). -/
def parseIsoTime (cs : List Char) : Option (ℤ × ℤ × ℤ) :=
  match cs with
  | [] => none
  | _ =>
    let tzIdx := (cs.takeWhile (fun c => ¬ (c = 'Z' ∨ c = '+' ∨ c = '-'))).length
    match parseHMSF (cs.take tzIdx) (tzIdx < cs.length) with
    | none => none
    | some (h, m, s, rv) =>
      if tzIdx = cs.length then
        if rv then none else some (h, m, s)
      else if cs.getD tzIdx '*' = 'Z' then
        if tzIdx + 1 = cs.length then some (h, m, s) else none
      else
        match parseHMSF (cs.drop (tzIdx + 1)) false with
        | none => none
        | some (th, tm, ts, trv) =>
          if trv then none
          else if th * 3600 + tm * 60 + ts < 86400 then some (h, m, s)
          else none

/-- C `datetime_fromisoformat` up to the constructor call: raw civil fields
(no validation yet). -/
def pyFromIsoFields (cs : List Char) : Option (ℤ × ℤ × ℤ × ℤ × ℤ × ℤ) :=
  if cs.length < 7 then none
  else match findIsoSep cs with
  | none => none
  | some sep =>
    match parseIsoDate (cs.take sep) with
    | none => none
    | some (y, mo, d) =>
      if cs.length ≤ sep then some (y, mo, d, 0, 0, 0)
      else match parseIsoTime (cs.drop (sep + 1)) with
        | none => none
        | some (h, mi, s) => some (y, mo, d, h, mi, s)

/-- `datetime.fromisoformat` as deployed (CPython 3.11 C implementation):
parse, then the `datetime` constructor's field validation. -/
def pyFromIso (s : String) : Option PyDateTime :=
  match pyFromIsoFields s.data with
  | none => none
  | some (y, mo, d, h, mi, sec) =>
    if 1 ≤ y ∧ y ≤ 9999 ∧ 1 ≤ mo ∧ mo ≤ 12 ∧ 1 ≤ d ∧ d ≤ daysInMonth y mo ∧
        0 ≤ h ∧ h ≤ 23 ∧ 0 ≤ mi ∧ mi ≤ 59 ∧ 0 ≤ sec ∧ sec ≤ 59 then
      some { year := y, month := mo, day := d, hour := h, minute := mi, second := sec }
    else none

/-- The decimal digit character for `n` in `0..9`. -/
def digitChar (n : ℤ) : Char := Char.ofNat (48 + n.toNat)

/-- Zero-padded two-digit rendering (`%m`, `%d`, `%H`, `%M`, `%S`). -/
def pad2 (n : ℤ) : List Char := [digitChar (n / 10), digitChar (n % 10)]

/-- `%Y` as rendered by CPython `strftime` on Linux (glibc): the year in
decimal with NO zero padding (year 5 renders as `5`). -/
def pyYearChars (y : ℤ) : List Char :=
  if y < 10 then [digitChar y]
  else if y < 100 then [digitChar (y / 10), digitChar (y % 10)]
  else if y < 1000 then
    [digitChar (y / 100), digitChar (y / 10 % 10), digitChar (y % 10)]
  else
    [digitChar (y / 1000), digitChar (y / 100 % 10), digitChar (y / 10 % 10),
     digitChar (y % 10)]

def strftimeYmdHms (dt : PyDateTime) : String :=
  ⟨pyYearChars dt.year ++ '-' :: pad2 dt.month ++ '-' :: pad2 dt.day ++
   ' ' :: pad2 dt.hour ++ ':' :: pad2 dt.minute ++ ':' :: pad2 dt.second⟩

/-- Models `utc_str.replace("Z", "+00:00")`: the pattern is a single
character, so every `Z` expands to the six offset characters. -/
def pyReplaceZ (s : String) : String :=
  ⟨s.data.flatMap (fun c => if c = 'Z' then ['+', '0', '0', ':', '0', '0'] else [c])⟩

/-- The kickoff-time normalization `adjust_utc_to_arg(utc_str)`: parse the
cleaned string, subtract three hours on the seconds timeline, and format;
the bare `except:` returns the input unchanged both when parsing fails and
when the subtraction underflows `datetime.min` (year 1), which CPython
reports as an `OverflowError`. -/
def adjust_utc_to_arg (utc_str : String) : String :=
  match pyFromIso (pyReplaceZ utc_str) with
  | none => utc_str
  | some dt =>
    let t := dtToSeconds dt - 10800
    if t < 86400 then utc_str
    else strftimeYmdHms (dtFromSeconds t)

/-- Three-digit number from three digit characters. -/
def num3 (a b c : Char) : Option ℤ :=
  match digitVal a, num2 b c with
  | some x, some y => some (100 * x + y)
  | _, _ => none

/-- Shared tail of the spec-side output-format reader. -/
def readYMDHMS (yv : Option ℤ) (mo1 mo0 d1 d0 h1 h0 mi1 mi0 s1 s0 : Char) :
    Option ℤ :=
  match yv, num2 mo1 mo0, num2 d1 d0, num2 h1 h0, num2 mi1 mi0, num2 s1 s0 with
  | some y, some mo, some d, some h, some mi, some sec =>
    if 1 ≤ y ∧ 1 ≤ mo ∧ mo ≤ 12 ∧ 1 ≤ d ∧ d ≤ daysInMonth y mo ∧
        0 ≤ h ∧ h ≤ 23 ∧ 0 ≤ mi ∧ mi ≤ 59 ∧ 0 ≤ sec ∧ sec ≤ 59 then
      some (toordinal y mo d * 86400 + h * 3600 + mi * 60 + sec)
    else none
  | _, _, _, _, _, _ => none

/-- The fixed `-%m-%d %H:%M:%S` tail of the output format. -/
def readFixedTail (yv : Option ℤ) (r : List Char) : Option ℤ :=
  match r with
  | ['-', mo1, mo0, '-', d1, d0, ' ', h1, h0, ':', mi1, mi0, ':', s1, s0] =>
    readYMDHMS yv mo1 mo0 d1 d0 h1 h0 mi1 mi0 s1 s0
  | _ => none

/-- Formalization of the SPEC side of the kickoff claim: read a string of
the program's output format `%Y-%m-%d %H:%M:%S` (`%Y` is 1 to 4 digits,
with no zero padding, on Linux — the year digits run up to the first dash)
back into the instant (seconds timeline) it denotes, or `none` if the
string is not of that form. -/
def specReadYmdHms (s : String) : Option ℤ :=
  match s.data with
  | c1 :: c2 :: c3 :: c4 :: r =>
    if c2 = '-' then readFixedTail (digitVal c1) (c2 :: c3 :: c4 :: r)
    else if c3 = '-' then readFixedTail (num2 c1 c2) (c3 :: c4 :: r)
    else if c4 = '-' then readFixedTail (num3 c1 c2 c3) (c4 :: r)
    else readFixedTail (num4 c1 c2 c3 c4) r
  | _ => none

/-! ## Ingestion Normalizer (api.py, load_match_directly) -/

/-- Models `convert_round_to_number` composed with the caller's `str(...)`:
knockout round names map to fixed gameweek numbers, anything else passes
through. -/
def convert_round_to_number (round_str : String) : String :=
  if round_str = "1/8" then "17"
  else if round_str = "1/4" then "18"
  else if round_str = "1/2" then "19"
  else if round_str = "Semi-final" then "19"
  else if round_str = "Final" then "20"
  else round_str

/-- One `key`/`value` stat item of a player stat group (`item["key"]`,
`item["stat"]["value"]`; the values this code reads are integral). -/
structure StatItem where
  key : String
  value : ℤ
deriving Repr, DecidableEq

/-- One payload player of a lineup section (`id`, `name`,
`usualPlayingPositionId`, `shirtNumber`, `performance.rating`,
`verticalLayout.x/y`). -/
structure PayloadPlayer where
  id : String
  name : String
  usualPlayingPositionId : Option ℤ
  shirtNumber : String
  rating : ℚ
  layout_x : Option ℚ
  layout_y : Option ℚ
deriving Repr, DecidableEq

/-- One lineup side (`lineup["homeTeam"]` / `lineup["awayTeam"]`). -/
structure PayloadTeam where
  id : String
  starters : List PayloadPlayer
  subs : List PayloadPlayer
deriving Repr, DecidableEq

/-- One entry of `content["shotmap"]["shots"]`. -/
structure PayloadShot where
  playerId : String
  playerName : String
  teamId : String
  min : String
  isOnTarget : Bool
  isBlocked : Bool
  shotType : String
  situation : String
  eventType : String
  isFromInsideBox : Bool
deriving Repr, DecidableEq

/-- One entry of the match event timeline; `cardDescription` carries the
`localizedKey` of the card descriptor when present. -/
structure PayloadEvent where
  card : Option String
  cardDescription : Option String
  player_id : String
  player_name : String
  isHome : Bool
  timeStr : String
deriving Repr, DecidableEq

/-- The match-details payload fields read by `load_match_directly`. -/
structure Payload where
  matchTimeUTCDate : String
  leagueRoundName : String
  homeTeamId : String
  homeTeamName : String
  awayTeamId : String
  awayTeamName : String
  status_finished : Bool
  scoreStr : Option String
  tournament_leagueName : String
  referee : Option String
  lineup_home : PayloadTeam
  lineup_away : PayloadTeam
  playerStats : List (String × List (List StatItem))
  shotmap : List PayloadShot
  events : List PayloadEvent
deriving Repr, DecidableEq

/-- The `match_row` dict built for the `matches` upsert. -/
def buildMatchRow (match_id : String) (p : Payload) : MatchRow :=
  { id := match_id,
    date := adjust_utc_to_arg p.matchTimeUTCDate,
    finished := p.status_finished,
    tournament := p.tournament_leagueName,
    gameweek := convert_round_to_number p.leagueRoundName,
    id_home_team := p.homeTeamId, home_team := p.homeTeamName,
    id_away_team := p.awayTeamId, away_team := p.awayTeamName,
    score := p.scoreStr, referee := p.referee }

/-- `INSERT OR REPLACE INTO matches`: SQLite deletes any row with the same
primary key and appends the new row (new rowid). -/
def upsertMatch (rows : List MatchRow) (r : MatchRow) : List MatchRow :=
  rows.filter (fun m => m.id ≠ r.id) ++ [r]

/-- Flattens the nested array-of-stat-groups into one `all_stats` dict
(`if item.get("key"): all_stats[key] = value`; a falsy key is skipped,
later groups overwrite earlier ones). -/
def flattenStats (groups : List (List StatItem)) : List (String × ℤ) :=
  groups.foldl (fun acc g =>
    g.foldl (fun acc2 it =>
      if it.key ≠ "" then dictInsert acc2 it.key it.value else acc2) acc) []

/-- The position map `{0: "ARQ", 1: "DF", 2: "M", 3: "DL"}`. -/
def pos_map : List (ℤ × String) := [(0, "ARQ"), (1, "DF"), (2, "M"), (3, "DL")]

/-- Builds one `player_match_details` row from a lineup player (the source
assigns `role_x` from `verticalLayout.y` and `role_y` from
`verticalLayout.x`; minutes default to 90 for starters and 0 for subs). -/
def buildPlayerRow (match_id team_id : String) (isStarter : Bool)
    (stats_map : List (String × List (List StatItem))) (pl : PayloadPlayer) : PMDRow :=
  let all_stats := flattenStats (alookupD stats_map pl.id [])
  { match_id := match_id, player_id := pl.id, team_id := team_id,
    player_name := pl.name,
    position := match pl.usualPlayingPositionId with
      | some k => alookupD pos_map k "N/A"
      | none => "N/A",
    shirt_number := pl.shirtNumber,
    is_starter := isStarter,
    minutes_played := alookupD all_stats "minutes_played" (if isStarter then 90 else 0),
    rating := pl.rating,
    role_x := pl.layout_y,
    role_y := pl.layout_x,
    fouls_committed := alookupD all_stats "fouls" 0,
    fouls_received := alookupD all_stats "was_fouled" 0 }

/-- The `player_rows` list: home then away side, starters then subs. -/
def playerRows (match_id : String) (p : Payload) : List PMDRow :=
  let side := fun (t : PayloadTeam) =>
    t.starters.map (buildPlayerRow match_id t.id true p.playerStats) ++
    t.subs.map (buildPlayerRow match_id t.id false p.playerStats)
  side p.lineup_home ++ side p.lineup_away

/-- The `shot_rows` list (`on_target` is `isOnTarget and not isBlocked`). -/
def shotRows (match_id : String) (p : Payload) : List ShotRow :=
  p.shotmap.map (fun s =>
    { match_id := match_id, player_id := s.playerId, player_name := s.playerName,
      team_id := s.teamId, minute := s.min,
      on_target := s.isOnTarget && !s.isBlocked,
      shot_type := s.shotType, situation := s.situation,
      outcome := s.eventType, inside_box := s.isFromInsideBox })

/-- The `card_rows` list: timeline events carrying a truthy card type,
excluding cards described as `not_on_pitch`; the team id comes from the
event's home/away flag and the general section's team ids. -/
def cardRows (match_id : String) (p : Payload) : List CardRow :=
  p.events.filterMap (fun ev =>
    match ev.card with
    | none => none
    | some ct =>
      if ct = "" then none
      else if ev.cardDescription = some "not_on_pitch" then none
      else some { match_id := match_id, player_id := ev.player_id,
                  player_name := ev.player_name,
                  team_id := if ev.isHome then p.homeTeamId else p.awayTeamId,
                  card_type := ct, minute := ev.timeStr })

/-- Primary-key projection of `player_match_details`. -/
def pmdKeys (l : List PMDRow) : List (String × String) :=
  l.map (fun r => (r.match_id, r.player_id))

/-- Whether appending `rows` to the table keeps the `(match_id, player_id)`
primary key unique; a violation makes `executemany` raise an
`IntegrityError` and pandas roll the batch back. -/
def pmdInsertOk (tbl rows : List PMDRow) : Bool :=
  decide (pmdKeys (tbl ++ rows)).Nodup

/-- The ingestion operation `load_match_directly(match_id, connection)`,
as a transition on the database state; `none` models an empty/malformed
API response (logged and skipped).  The `matches` row is upserted and
committed first; for a finished match the three child-row batches are
appended in order, and a primary-key conflict on the appearance batch
raises inside the `try`, so the shots and cards inserts are skipped and
the already-committed state is kept (the shots and cards tables have
autoincrement keys and never conflict). -/
def load_match_directly (match_id : String) (resp : Option Payload) (db : DB) : DB :=
  match resp with
  | none => db
  | some p =>
    let db1 : DB := { db with «matches» := upsertMatch db.«matches» (buildMatchRow match_id p) }
    if p.status_finished = false then db1
    else
      let prows := playerRows match_id p
      if prows ≠ [] ∧ ¬ pmdInsertOk db1.player_match_details prows then db1
      else
        let db2 : DB := { db1 with player_match_details := db1.player_match_details ++ prows }
        let db3 : DB := { db2 with shots := db2.shots ++ shotRows match_id p }
        { db3 with cards := db3.cards ++ cardRows match_id p }

/-- A finished-match payload whose lineup sections are empty (the spec's
"finished in the header before its lineup is available" situation) but
which carries one shot. -/
def samplePayloadNoLineup : Payload :=
  { matchTimeUTCDate := "2025-03-01T18:00:00Z", leagueRoundName := "1",
    homeTeamId := "T1", homeTeamName := "Home", awayTeamId := "T2",
    awayTeamName := "Away", status_finished := true, scoreStr := some "1-0",
    tournament_leagueName := "Liga", referee := some "R",
    lineup_home := ⟨"T1", [], []⟩, lineup_away := ⟨"T2", [], []⟩,
    playerStats := [],
    shotmap := [⟨"P1", "Player One", "T1", "10", true, false, "RegularShot",
      "Open play", "Goal", true⟩],
    events := [] }

/-- The same fixture while still pending (`finished` false). -/
def samplePayloadPending : Payload :=
  { samplePayloadNoLineup with status_finished := false, scoreStr := none }

/-- A database holding a single not-yet-finished fixture of team `T1`
against `T2` (so `T1` is a known team with zero finished matches). -/
def sampleDBPending : DB :=
  ⟨[⟨"M1", "2025-01-01 00:00:00", false, "Liga", "1", "T1", "Home", "T2",
     "Away", none, none⟩], [], [], []⟩

/-- A shot in a match (`MX`) that is in nobody's ranking window. -/
def sampleOutsideShot : ShotRow :=
  ⟨"MX", "P9", "Nine", "T1", "5", true, "RegularShot", "Open play", "Miss", false⟩

/-- Formalization of the SPEC's description of the `against` direction (for
comparison with the code): shot events satisfying the category predicate
that are attributed to the entity's opponent in the matches the entity
played, resolved through the event-to-match join. -/
def specAgainstShots (db : DB) (pr : ShotRow → Bool) (tid : String) : ℤ :=
  ((db.shots.filter (fun s => pr s &&
    (match joinMatch db s.match_id with
     | some m => (m.id_home_team = tid || m.id_away_team = tid)
         && s.team_id = oppOf m tid
     | none => false))).length : ℤ)

/-- Formalization of the SPEC's `against` description for cards. -/
def specAgainstCards (db : DB) (tid : String) : ℤ :=
  ((db.cards.filter (fun c =>
    (match joinMatch db c.match_id with
     | some m => (m.id_home_team = tid || m.id_away_team = tid)
         && c.team_id = oppOf m tid
     | none => false))).length : ℤ)

/-- Formalization of the SPEC's `against` description for fouls: the sum of
fouls committed by the entity's opponents in the entity's matches. -/
def specAgainstFouls (db : DB) (tid : String) : ℤ :=
  ((db.player_match_details.filter (fun p =>
    (match joinMatch db p.match_id with
     | some m => (m.id_home_team = tid || m.id_away_team = tid)
         && p.team_id = oppOf m tid
     | none => false))).map (fun p => p.fouls_committed)).sum

/-- A database with one finished match `X` (home) vs `Y` (away) in which
`Y`'s player committed 5 fouls while `X`'s player is recorded as fouled
only 3 times, plus one card against `Y`. -/
def c4DB : DB :=
  ⟨[⟨"M1", "2025-01-01 12:00:00", true, "Liga", "1", "X", "XN", "Y", "YN",
     some "0-0", some "R"⟩],
   [⟨"M1", "P1", "Y", "PY", "M", "10", true, 90, 6, none, none, 5, 0⟩,
    ⟨"M1", "P2", "X", "PX", "M", "11", true, 90, 6, none, none, 0, 3⟩],
   [],
   [⟨"M1", "P1", "PY", "Y", "Yellow", "20"⟩]⟩

/-! ## Claims about the Prediction Engine -/

/-- C1, counterexample: with league size 30, home made-rank 5 and away
against-rank 10 and no referee, `get_prediction_logic` returns home score
77 (`int()` truncation of 4500/58), while the claimed `round` formula gives
78, so the claim as stated is false on the code. -/
theorem C1_counterexample :
    (get_prediction_logic DB.empty "H" "A" "shots" "all" none
      (some ([("H", 5)], [("A", 10)], none))).h = 77 ∧
    round ((100 : ℚ) * ((30 - 5) + (30 - 10)) / (2 * 30 - 2)) = 78 ∧
    (77 : ℤ) ≠ 78 := by
  refine ⟨?_, ?_, by norm_num⟩
  · simp [get_prediction_logic, alookupD, alookup, refereeTruthy, pyint]
    norm_num
  · rw [round_eq]; norm_num

/-- C1, amended: without a referee, the home-side score equals the
truncation toward zero (not the rounding) of
`100 * ((30 - rmH) + (30 - raA)) / (2*30 - 2)`, where `rmH` is the home
entity's made-rank and `raA` the away entity's against-rank, both
defaulting to 15; for `rmH = 5`, `raA = 10` this is 77 (see
`C1_counterexample`). -/
theorem C1_amended (home away cat ft : String) (m a : List (String × ℕ))
    (rr : Option (List (Option String × ℕ))) (db : DB) :
    (get_prediction_logic db home away cat ft none (some (m, a, rr))).h =
      pyint (100 * ((30 - ((alookupD m home 15 : ℕ) : ℚ))
        + (30 - ((alookupD a away 15 : ℕ) : ℚ))) / (2 * 30 - 2)) := by
  simp [get_prediction_logic, refereeTruthy]
  congr 1
  ring

/-- C2: at the all-ranks-1 input the referee-folded combined score is
`int(145 / 143 * 100) = 101`: the code divides the five inverted ranks by
143, not by the claimed `5*30 - 5 = 145`, and truncates instead of
rounding; the claimed formula gives 100, and the code's 101 even exceeds
the documented score bound of 100. -/
theorem C2_divisor_143_evaluation :
    (get_prediction_logic DB.empty "H" "A" "cards" "all" (some "R")
      (some ([("H", 1), ("A", 1)], [("H", 1), ("A", 1)], some [(some "R", 1)]))).gen
        = 101 ∧
    round ((100 : ℚ) * ((30 - 1) + (30 - 1) + (30 - 1) + (30 - 1) + (30 - 1))
        / (5 * 30 - 5)) = 100 ∧
    (101 : ℤ) > 100 := by
  refine ⟨?_, ?_, by norm_num⟩
  · simp [get_prediction_logic, alookupD, alookup, refereeTruthy, refMapTruthy, pyint]
    norm_num
  · rw [round_eq]; norm_num

/-- C8: an entity id absent from the made (resp. against) rank dictionary
contributes the fallback rank 15 for the corresponding contributing rank,
and when all four lookups miss, the home and away scores are computed from
rank 15 everywhere. -/
theorem C8_missing_rank_fallback (home away cat ft : String)
    (m a : List (String × ℕ)) (rr : Option (List (Option String × ℕ))) (db : DB) :
    ((alookup home m = none →
        (get_prediction_logic db home away cat ft none (some (m, a, rr))).rm_h = 15) ∧
     (alookup home a = none →
        (get_prediction_logic db home away cat ft none (some (m, a, rr))).ra_h = 15) ∧
     (alookup away m = none →
        (get_prediction_logic db home away cat ft none (some (m, a, rr))).rm_v = 15) ∧
     (alookup away a = none →
        (get_prediction_logic db home away cat ft none (some (m, a, rr))).ra_v = 15)) ∧
    (alookup home m = none → alookup home a = none → alookup away m = none →
      alookup away a = none →
      (get_prediction_logic db home away cat ft none (some (m, a, rr))).h =
        pyint (((30 - (15 : ℚ)) + (30 - (15 : ℚ))) / 58 * 100) ∧
      (get_prediction_logic db home away cat ft none (some (m, a, rr))).v =
        pyint (((30 - (15 : ℚ)) + (30 - (15 : ℚ))) / 58 * 100)) := by
  refine ⟨⟨fun h1 => ?_, fun h1 => ?_, fun h1 => ?_, fun h1 => ?_⟩,
    fun h1 h2 h3 h4 => ?_⟩
  · simp [get_prediction_logic, refereeTruthy, alookupD, h1]
  · simp [get_prediction_logic, refereeTruthy, alookupD, h1]
  · simp [get_prediction_logic, refereeTruthy, alookupD, h1]
  · simp [get_prediction_logic, refereeTruthy, alookupD, h1]
  · simp [get_prediction_logic, refereeTruthy, alookupD, h1, h2, h3, h4]

/-- C8, witness: at empty rank dictionaries every contributing rank is 15
and both scores are the all-15 formula value. -/
theorem C8_missing_rank_fallback_witness :
    (get_prediction_logic DB.empty "H" "A" "shots" "all" none
        (some ([], [], none))).rm_h = 15 ∧
    (get_prediction_logic DB.empty "H" "A" "shots" "all" none
        (some ([], [], none))).ra_h = 15 ∧
    (get_prediction_logic DB.empty "H" "A" "shots" "all" none
        (some ([], [], none))).rm_v = 15 ∧
    (get_prediction_logic DB.empty "H" "A" "shots" "all" none
        (some ([], [], none))).ra_v = 15 ∧
    (get_prediction_logic DB.empty "H" "A" "shots" "all" none
        (some ([], [], none))).h =
      pyint (((30 - (15 : ℚ)) + (30 - (15 : ℚ))) / 58 * 100) := by
  have T := C8_missing_rank_fallback "H" "A" "shots" "all" [] [] none DB.empty
  exact ⟨T.1.1 rfl, T.1.2.1 rfl, T.1.2.2.1 rfl, T.1.2.2.2 rfl,
    (T.2 rfl rfl rfl rfl).1⟩

/-- C10: a non-empty referee name that is absent from a supplied non-empty
referee ranking still triggers the three-term referee-folding branch for
the categories cards and fouls, with the fallback referee rank 15 folded
into the per-side score over the divisor 87. -/
theorem C10_referee_fallback_three_term (home away r ft cat : String)
    (m a : List (String × ℕ)) (rf : List (Option String × ℕ)) (db : DB)
    (hr : r ≠ "") (hcat : cat = "cards" ∨ cat = "fouls")
    (habs : alookup (some r) rf = none) (hne : rf ≠ []) :
    (get_prediction_logic db home away cat ft (some r) (some (m, a, some rf))).ref_rank
        = some 15 ∧
    (get_prediction_logic db home away cat ft (some r) (some (m, a, some rf))).h =
      pyint (((30 - ((alookupD m home 15 : ℕ) : ℚ))
        + (30 - ((alookupD a away 15 : ℕ) : ℚ)) + (30 - (15 : ℚ))) / 87 * 100) := by
  obtain ⟨x, xs, rfl⟩ : ∃ x xs, rf = x :: xs := by
    cases rf with
    | nil => exact absurd rfl hne
    | cons x xs => exact ⟨x, xs, rfl⟩
  rcases hcat with rfl | rfl
  · simp [get_prediction_logic, refereeTruthy, refMapTruthy, hr, alookupD, habs]
  · simp [get_prediction_logic, refereeTruthy, refMapTruthy, hr, alookupD, habs]

/-- C10, witness: referee "R" absent from the one-entry ranking of referee
"S" gets rank 15 and the three-term formula. -/
theorem C10_referee_fallback_three_term_witness :
    (get_prediction_logic DB.empty "H" "A" "cards" "all" (some "R")
        (some ([], [], some [(some "S", 1)]))).ref_rank = some 15 ∧
    (get_prediction_logic DB.empty "H" "A" "cards" "all" (some "R")
        (some ([], [], some [(some "S", 1)]))).h =
      pyint (((30 - ((alookupD ([] : List (String × ℕ)) "H" 15 : ℕ) : ℚ))
        + (30 - ((alookupD ([] : List (String × ℕ)) "A" 15 : ℕ) : ℚ))
        + (30 - (15 : ℚ))) / 87 * 100) :=
  C10_referee_fallback_three_term "H" "A" "R" "all" "cards" [] []
    [(some "S", 1)] DB.empty (by decide) (Or.inl rfl) (by decide) (by decide)

/-! ## Claims about the Ingestion Normalizer -/

/-- C3: ingestion is not idempotent for every finished-match payload: for a
finished payload with no lineup players and one shot, the first ingestion
stores one shot row and re-ingesting the same match id appends a duplicate,
leaving two rows (the appearance batch is empty, so no primary-key conflict
aborts the run, and the shots table is append-only). -/
theorem C3_reingest_duplicates_shots :
    (load_match_directly "M1" (some samplePayloadNoLineup) DB.empty).shots.length = 1 ∧
    (load_match_directly "M1" (some samplePayloadNoLineup)
      (load_match_directly "M1" (some samplePayloadNoLineup) DB.empty)).shots.length = 2 := by
  constructor
  · simp [load_match_directly, samplePayloadNoLineup, playerRows, shotRows, DB.empty]
  · simp [load_match_directly, samplePayloadNoLineup, playerRows, shotRows, DB.empty]

/-- C7: ingesting a payload reported as not finished leaves the player
appearance, shot, and card tables exactly as they were and replaces the
`matches` rows of that id by the single freshly built row. -/
theorem C7_unfinished_upserts_match_only (mid : String) (p : Payload) (db : DB)
    (hnf : p.status_finished = false) :
    (load_match_directly mid (some p) db).player_match_details = db.player_match_details ∧
    (load_match_directly mid (some p) db).shots = db.shots ∧
    (load_match_directly mid (some p) db).cards = db.cards ∧
    (load_match_directly mid (some p) db).«matches» =
      db.«matches».filter (fun m => m.id ≠ mid) ++ [buildMatchRow mid p] ∧
    ((load_match_directly mid (some p) db).«matches».filter (fun m => m.id = mid))
      = [buildMatchRow mid p] := by
  refine ⟨?_, ?_, ?_, ?_, ?_⟩ <;>
    simp [load_match_directly, hnf, upsertMatch, buildMatchRow, List.filter_append,
      List.filter_filter]

/-- C7, witness: the pending sample payload ingested into the empty
database writes the match row and no child rows. -/
theorem C7_unfinished_upserts_match_only_witness :
    (load_match_directly "M1" (some samplePayloadPending) DB.empty).player_match_details
      = DB.empty.player_match_details ∧
    (load_match_directly "M1" (some samplePayloadPending) DB.empty).shots = DB.empty.shots ∧
    (load_match_directly "M1" (some samplePayloadPending) DB.empty).cards = DB.empty.cards ∧
    (load_match_directly "M1" (some samplePayloadPending) DB.empty).«matches» =
      DB.empty.«matches».filter (fun m => m.id ≠ "M1") ++ [buildMatchRow "M1" samplePayloadPending] := by
  have T := C7_unfinished_upserts_match_only "M1" samplePayloadPending DB.empty rfl
  exact ⟨T.1, T.2.1, T.2.2.1, T.2.2.2.1⟩

/-! ## Claims about the Ranking Engine -/

/-- Helper: membership in the `dedupFirst` fold, generalized over the
accumulator. -/
theorem mem_dedupFirst_aux [DecidableEq α] (l : List α) (acc : List α) (a : α) :
    a ∈ l.foldl (fun acc k => if acc.contains k then acc else acc ++ [k]) acc ↔
      a ∈ acc ∨ a ∈ l := by
  induction l generalizing acc with
  | nil => simp
  | cons x xs ih =>
    simp only [List.foldl_cons]
    by_cases h : acc.contains x
    · rw [if_pos h, ih]
      have hx : x ∈ acc := by simpa using h
      constructor
      · rintro (ha | ha)
        · exact Or.inl ha
        · exact Or.inr (List.mem_cons_of_mem x ha)
      · rintro (ha | ha)
        · exact Or.inl ha
        · rcases List.mem_cons.mp ha with rfl | ha
          · exact Or.inl hx
          · exact Or.inr ha
    · rw [if_neg h, ih]
      simp only [List.mem_append, List.mem_singleton, List.mem_cons]
      tauto

/-- Helper: `dedupFirst` preserves membership. -/
theorem mem_dedupFirst [DecidableEq α] {a : α} {l : List α} :
    a ∈ dedupFirst l ↔ a ∈ l := by
  rw [dedupFirst, mem_dedupFirst_aux]
  simp

/-- Helper: a team with no finished matches has an empty ranking window. -/
theorem windowIds_of_no_matches {db : DB} {tid : String} (h : finishedMatchesOf db tid = [])
    (n : ℕ) : windowIds db tid n = [] := by
  simp [windowIds, h]

/-- Helper: both windowed entries carry the team id they were built for. -/
theorem windowEntry_fst_id (db : DB) (c f : String) (l : ℕ) (t : String) :
    ((windowEntry db c f l t).1.id = t) ∧ ((windowEntry db c f l t).2.id = t) := by
  by_cases h : (windowIds db t l).length = 0 <;> simp [windowEntry, h]

/-- Helper: with an empty window both entries are the zero entry. -/
theorem windowEntry_of_no_matches {db : DB} {tid : String} (c f : String) (l : ℕ)
    (h : finishedMatchesOf db tid = []) :
    windowEntry db c f l tid =
      (⟨tid, alookupD (teams_map db) tid "N/A", 0, 0, 0⟩,
       ⟨tid, alookupD (teams_map db) tid "N/A", 0, 0, 0⟩) := by
  rw [windowEntry, windowIds_of_no_matches h]
  simp

/-- C6: a known team with zero qualifying finished matches gets, in both
directions of the windowed ranking, exactly the zero-valued entry with
total 0, matches-played 0 and average 0 (the per-match division sits in
the other branch and is never taken). -/
theorem C6_zero_window_entry (db : DB) (cat ft ob : String) (n : ℕ) (tid : String)
    (hmem : tid ∈ (teams_map db).map Prod.fst)
    (hempty : finishedMatchesOf db tid = []) :
    (∃ e ∈ (get_team_stats_core db cat ft ob (some (n + 1))).1, e.id = tid) ∧
    (∀ e ∈ (get_team_stats_core db cat ft ob (some (n + 1))).1, e.id = tid →
      e = ⟨tid, alookupD (teams_map db) tid "N/A", 0, 0, 0⟩) ∧
    (∀ e ∈ (get_team_stats_core db cat ft ob (some (n + 1))).2, e.id = tid →
      e = ⟨tid, alookupD (teams_map db) tid "N/A", 0, 0, 0⟩) := by
  obtain ⟨p, hp, hid⟩ := List.mem_map.mp hmem
  refine ⟨⟨(windowEntry db cat ft (n+1) p.1).1, ?_, ?_⟩, ?_, ?_⟩
  · rw [get_team_stats_core]
    simp only [List.mem_mergeSort]
    exact List.mem_map.mpr ⟨windowEntry db cat ft (n+1) p.1,
      List.mem_map.mpr ⟨p, hp, rfl⟩, rfl⟩
  · rw [hid, (windowEntry_fst_id db cat ft (n+1) tid).1]
  · intro e he hide
    rw [get_team_stats_core] at he
    simp only [List.mem_mergeSort, List.mem_map] at he
    obtain ⟨q, ⟨p', hp', rfl⟩, rfl⟩ := he
    have hpt : p'.1 = tid := by
      rw [(windowEntry_fst_id db cat ft (n+1) p'.1).1] at hide; exact hide
    rw [hpt, windowEntry_of_no_matches cat ft _ hempty]
  · intro e he hide
    rw [get_team_stats_core] at he
    simp only [List.mem_mergeSort, List.mem_map] at he
    obtain ⟨q, ⟨p', hp', rfl⟩, rfl⟩ := he
    have hpt : p'.1 = tid := by
      rw [(windowEntry_fst_id db cat ft (n+1) p'.1).2] at hide; exact hide
    rw [hpt, windowEntry_of_no_matches cat ft _ hempty]

/-- C6, witness: team `T1` of the pending-only database gets the zero
entry in the 5-match windowed shots ranking. -/
theorem C6_zero_window_entry_witness :
    (∃ e ∈ (get_team_stats_core sampleDBPending "shots" "all" "total" (some 5)).1,
      e.id = "T1") ∧
    (∀ e ∈ (get_team_stats_core sampleDBPending "shots" "all" "total" (some 5)).1,
      e.id = "T1" →
      e = ⟨"T1", alookupD (teams_map sampleDBPending) "T1" "N/A", 0, 0, 0⟩) ∧
    (∀ e ∈ (get_team_stats_core sampleDBPending "shots" "all" "total" (some 5)).2,
      e.id = "T1" →
      e = ⟨"T1", alookupD (teams_map sampleDBPending) "T1" "N/A", 0, 0, 0⟩) :=
  C6_zero_window_entry sampleDBPending "shots" "all" "total" 4 "T1"
    (by decide) (by decide)
/-- Helper: every category total over an empty window is zero. -/
theorem windowTotals_nil (db : DB) (c f t : String) :
    windowTotals db c f t [] = (0, 0) := by
  unfold windowTotals
  split_ifs <;> simp

/-- Helper: the totals of a windowed entry are the window totals (also
through the empty-window branch). -/
theorem windowEntry_fst_total (db : DB) (c f : String) (l : ℕ) (t : String) :
    (windowEntry db c f l t).1.total = (windowTotals db c f t (windowIds db t l)).1 ∧
    (windowEntry db c f l t).2.total = (windowTotals db c f t (windowIds db t l)).2 := by
  by_cases h : (windowIds db t l).length = 0
  · rw [List.length_eq_zero] at h
    simp [windowEntry, h, windowTotals_nil]
  · simp [windowEntry, h]

/-- Helper: a filter rejecting every joined pair of a row list is empty. -/
theorem withOpp_filter_eq_nil (db2 : DB) (rows : List α) (mid tf : α → String)
    (P : α × String → Bool)
    (hP : ∀ r ∈ rows, ∀ m : MatchRow, P (r, oppOf m (tf r)) = false) :
    (withOpp db2 rows mid tf).filter P = [] := by
  refine List.filter_eq_nil_iff.mpr (fun p hp => ?_)
  obtain ⟨r, hr, hsome⟩ := List.mem_filterMap.mp hp
  cases hjm : joinMatch db2 (mid r) with
  | none => rw [hjm] at hsome; simp at hsome
  | some m =>
    rw [hjm] at hsome
    simp only [Option.map_some'] at hsome
    obtain rfl := Option.some_inj.mp hsome
    simp [hP r hr m]

/-- Helper: appending events whose match ids lie outside a given id list
leaves every category's window totals over that list unchanged. -/
theorem windowTotals_extend (db : DB) (extraP : List PMDRow) (extraS : List ShotRow)
    (extraC : List CardRow) (cat ft tid : String) (ids : List String)
    (hS : ∀ s ∈ extraS, s.match_id ∉ ids)
    (hP : ∀ p ∈ extraP, p.match_id ∉ ids)
    (hC : ∀ c ∈ extraC, c.match_id ∉ ids) :
    windowTotals ⟨db.«matches», db.player_match_details ++ extraP,
      db.shots ++ extraS, db.cards ++ extraC⟩ cat ft tid ids =
    windowTotals db cat ft tid ids := by
  have hsA : extraS.filter
      (fun s => decide (s.team_id = tid) && ids.contains s.match_id && shotFilter ft s) = [] :=
    List.filter_eq_nil_iff.mpr (fun s hs => by simp [hS s hs])
  have hsB : extraS.filter
      (fun s => decide (s.team_id = tid) && decide (s.shot_type = "Header")
        && ids.contains s.match_id) = [] :=
    List.filter_eq_nil_iff.mpr (fun s hs => by simp [hS s hs])
  have hcA : extraC.filter (fun c => decide (c.team_id = tid) && ids.contains c.match_id) = [] :=
    List.filter_eq_nil_iff.mpr (fun c hc => by simp [hC c hc])
  have hpA : extraP.filter (fun p => decide (p.team_id = tid) && ids.contains p.match_id) = [] :=
    List.filter_eq_nil_iff.mpr (fun p hp => by simp [hP p hp])
  have hosA : ((withOpp db extraS (fun x => x.match_id) (fun x => x.team_id)).filter
      (fun p => decide (p.2 = tid) && ids.contains p.1.match_id && shotFilter ft p.1)) = [] :=
    withOpp_filter_eq_nil db extraS _ _ _ (fun r hr m => by simp [hS r hr])
  have hosB : ((withOpp db extraS (fun x => x.match_id) (fun x => x.team_id)).filter
      (fun p => decide (p.2 = tid) && decide (p.1.shot_type = "Header")
        && ids.contains p.1.match_id)) = [] :=
    withOpp_filter_eq_nil db extraS _ _ _ (fun r hr m => by simp [hS r hr])
  have hocA : ((withOpp db extraC (fun x => x.match_id) (fun x => x.team_id)).filter
      (fun p => decide (p.2 = tid) && ids.contains p.1.match_id)) = [] :=
    withOpp_filter_eq_nil db extraC _ _ _ (fun r hr m => by simp [hC r hr])
  simp only [withOpp] at hosA hosB hocA
  unfold windowTotals
  have hjm : joinMatch ⟨db.«matches», db.player_match_details ++ extraP,
      db.shots ++ extraS, db.cards ++ extraC⟩ = joinMatch db := rfl
  split_ifs
  · simp only [withOpp, hjm, List.filter_append, List.filterMap_append,
      hsA, hosA, List.append_nil]
  · simp only [withOpp, hjm, List.filter_append, List.filterMap_append,
      hsB, hosB, List.append_nil]
  · simp only [withOpp, hjm, List.filter_append, List.filterMap_append,
      hcA, hocA, List.append_nil]
  · simp only [List.filter_append, hpA, List.append_nil]
  · rfl

/-- Helper: appending out-of-window events leaves a team's windowed entry
unchanged. -/
theorem windowEntry_extend (db : DB) (extraP : List PMDRow) (extraS : List ShotRow)
    (extraC : List CardRow) (cat ft tid : String) (l : ℕ)
    (hS : ∀ s ∈ extraS, s.match_id ∉ windowIds db tid l)
    (hP : ∀ p ∈ extraP, p.match_id ∉ windowIds db tid l)
    (hC : ∀ c ∈ extraC, c.match_id ∉ windowIds db tid l) :
    windowEntry ⟨db.«matches», db.player_match_details ++ extraP,
      db.shots ++ extraS, db.cards ++ extraC⟩ cat ft l tid =
    windowEntry db cat ft l tid := by
  have hw : windowIds ⟨db.«matches», db.player_match_details ++ extraP,
      db.shots ++ extraS, db.cards ++ extraC⟩ tid l = windowIds db tid l := rfl
  have htm : teams_map ⟨db.«matches», db.player_match_details ++ extraP,
      db.shots ++ extraS, db.cards ++ extraC⟩ = teams_map db := rfl
  rw [windowEntry, windowEntry, hw, htm,
    windowTotals_extend db extraP extraS extraC cat ft tid _ hS hP hC]

/-- C5: in the windowed ranking the totals of team `tid` count exactly the
events whose match id lies in `tid's own window of most recent finished
matches (shown for the shots category, made and against), and appending any
events -- appearances, shots, or cards -- whose match ids lie outside that
window leaves `tid`'s entries unchanged in every category. -/
theorem C5_window_isolation (db : DB) (ft ob cat : String) (n : ℕ) (tid : String)
    (extraP : List PMDRow) (extraS : List ShotRow) (extraC : List CardRow)
    (hS : ∀ s ∈ extraS, s.match_id ∉ windowIds db tid (n + 1))
    (hP : ∀ p ∈ extraP, p.match_id ∉ windowIds db tid (n + 1))
    (hC : ∀ c ∈ extraC, c.match_id ∉ windowIds db tid (n + 1)) :
    (∀ e ∈ (get_team_stats_core db "shots" ft ob (some (n + 1))).1, e.id = tid →
      e.total = ((db.shots.filter (fun s => s.team_id = tid
        && (windowIds db tid (n + 1)).contains s.match_id && shotFilter ft s)).length : ℤ)) ∧
    (∀ e ∈ (get_team_stats_core db "shots" ft ob (some (n + 1))).2, e.id = tid →
      e.total = (((withOpp db db.shots (fun x => x.match_id) (fun x => x.team_id)).filter
        (fun p => p.2 = tid && (windowIds db tid (n + 1)).contains p.1.match_id
          && shotFilter ft p.1)).length : ℤ)) ∧
    (∀ e ∈ (get_team_stats_core ⟨db.«matches», db.player_match_details ++ extraP,
        db.shots ++ extraS, db.cards ++ extraC⟩ cat ft ob (some (n + 1))).1,
      e.id = tid → e ∈ (get_team_stats_core db cat ft ob (some (n + 1))).1) ∧
    (∀ e ∈ (get_team_stats_core ⟨db.«matches», db.player_match_details ++ extraP,
        db.shots ++ extraS, db.cards ++ extraC⟩ cat ft ob (some (n + 1))).2,
      e.id = tid → e ∈ (get_team_stats_core db cat ft ob (some (n + 1))).2) := by
  have htm : teams_map ⟨db.«matches», db.player_match_details ++ extraP,
      db.shots ++ extraS, db.cards ++ extraC⟩ = teams_map db := rfl
  refine ⟨?_, ?_, ?_, ?_⟩
  · intro e he hide
    rw [get_team_stats_core] at he
    simp only [List.mem_mergeSort, List.mem_map] at he
    obtain ⟨q, ⟨p', hp', rfl⟩, rfl⟩ := he
    have hpt : p'.1 = tid := by
      rw [(windowEntry_fst_id db "shots" ft (n+1) p'.1).1] at hide; exact hide
    rw [hpt, (windowEntry_fst_total db "shots" ft (n+1) tid).1]
    simp [windowTotals]
  · intro e he hide
    rw [get_team_stats_core] at he
    simp only [List.mem_mergeSort, List.mem_map] at he
    obtain ⟨q, ⟨p', hp', rfl⟩, rfl⟩ := he
    have hpt : p'.1 = tid := by
      rw [(windowEntry_fst_id db "shots" ft (n+1) p'.1).2] at hide; exact hide
    rw [hpt, (windowEntry_fst_total db "shots" ft (n+1) tid).2]
    simp [windowTotals]
  · intro e he hide
    rw [get_team_stats_core] at he
    simp only [List.mem_mergeSort, List.mem_map] at he
    obtain ⟨q, ⟨p', hp', rfl⟩, rfl⟩ := he
    rw [htm] at hp'
    have hpt : p'.1 = tid := by
      rw [(windowEntry_fst_id _ cat ft (n+1) p'.1).1] at hide; exact hide
    rw [get_team_stats_core]
    simp only [List.mem_mergeSort, List.mem_map]
    refine ⟨windowEntry db cat ft (n+1) p'.1, ⟨p', hp', rfl⟩, ?_⟩
    rw [hpt, windowEntry_extend db extraP extraS extraC cat ft tid (n+1) hS hP hC]
  · intro e he hide
    rw [get_team_stats_core] at he
    simp only [List.mem_mergeSort, List.mem_map] at he
    obtain ⟨q, ⟨p', hp', rfl⟩, rfl⟩ := he
    rw [htm] at hp'
    have hpt : p'.1 = tid := by
      rw [(windowEntry_fst_id _ cat ft (n+1) p'.1).2] at hide; exact hide
    rw [get_team_stats_core]
    simp only [List.mem_mergeSort, List.mem_map]
    refine ⟨windowEntry db cat ft (n+1) p'.1, ⟨p', hp', rfl⟩, ?_⟩
    rw [hpt, windowEntry_extend db extraP extraS extraC cat ft tid (n+1) hS hP hC]

/-- C5, witness: with the pending-only database and an out-of-window shot
appended, team `T1`'s windowed entry keeps counting only its own window. -/
theorem C5_window_isolation_witness :
    (∀ e ∈ (get_team_stats_core sampleDBPending "shots" "all" "total" (some 5)).1,
      e.id = "T1" →
      e.total = ((sampleDBPending.shots.filter (fun s => s.team_id = "T1"
        && (windowIds sampleDBPending "T1" 5).contains s.match_id
        && shotFilter "all" s)).length : ℤ)) ∧
    (∀ e ∈ (get_team_stats_core ⟨sampleDBPending.«matches»,
        sampleDBPending.player_match_details ++ [],
        sampleDBPending.shots ++ [sampleOutsideShot],
        sampleDBPending.cards ++ []⟩ "shots" "all" "total" (some 5)).1,
      e.id = "T1" →
      e ∈ (get_team_stats_core sampleDBPending "shots" "all" "total" (some 5)).1) := by
  have T := C5_window_isolation sampleDBPending "all" "total" "shots" 4 "T1"
    [] [sampleOutsideShot] []
    (by simp [windowIds, finishedMatchesOf, sampleDBPending])
    (by simp)
    (by simp)
  exact ⟨T.1, T.2.2.1⟩

/-- C4, counterexample: in a database where team `X`'s opponents committed
5 fouls in `X`'s matches but `X`'s own players are recorded with only 3
fouls received, the fouls `against` leaderboard entry for `X` carries total
3 (the code sums the entity's own `fouls_received`, with no join), while
the claimed opponent-join semantics gives 5. -/
theorem C4_counterexample :
    (∃ e ∈ (get_team_stats_core c4DB "fouls" "all" "total" none).2,
      e.id = "X" ∧ e.total = 3) ∧
    (∀ e ∈ (get_team_stats_core c4DB "fouls" "all" "total" none).2,
      e.id = "X" → e.total = 3) ∧
    specAgainstFouls c4DB "X" = 5 ∧ (3 : ℤ) ≠ 5 := by
  have hres : (get_team_stats_core c4DB "fouls" "all" "total" none).2 =
      ((globalAgg c4DB "fouls" "all").2.mergeSort (fun a b =>
        decide (sqlMetric "total" b ≤ sqlMetric "total" a))).map (structureRow c4DB) := rfl
  have hagg : (globalAgg c4DB "fouls" "all").2 = [("Y", 0, 1), ("X", 3, 1)] := by decide
  refine ⟨⟨structureRow c4DB ("X", 3, 1), ?_, rfl, rfl⟩, ?_, by decide, by decide⟩
  · rw [hres, hagg]
    exact List.mem_map.mpr ⟨("X", 3, 1), List.mem_mergeSort.mpr (by decide), rfl⟩
  · intro e he hid
    rw [hres, hagg] at he
    obtain ⟨t, ht, rfl⟩ := List.mem_map.mp he
    rw [List.mem_mergeSort] at ht
    simp only [List.mem_cons, List.not_mem_nil, or_false] at ht
    rcases ht with rfl | rfl
    · exact absurd hid (by decide)
    · rfl

/-- Helper: summing the constant 1 over a list counts its length. -/
theorem sum_map_one (l : List α) : ((l.map (fun _ => (1 : ℤ))).sum) = l.length := by
  induction l with
  | nil => rfl
  | cons x xs ih => simp [ih]; ring

/-- Helper: the total of a `GROUP BY` row is the sum of `val` over the rows
of its key. -/
theorem aggRows_total_of_mem (rows : List α) (key mid : α → String) (val : α → ℤ)
    (t : String × ℤ × ℕ) (ht : t ∈ aggRows rows key mid val) :
    t.2.1 = ((rows.filter (fun r => key r = t.1)).map val).sum := by
  obtain ⟨k, hk, rfl⟩ := List.mem_map.mp ht
  rfl

/-- Helper: every key occurring in the rows owns a `GROUP BY` output row. -/
theorem aggRows_exists (rows : List α) (key mid : α → String) (val : α → ℤ)
    (k : String) (hk : k ∈ rows.map key) :
    ∃ t ∈ aggRows rows key mid val, t.1 = k :=
  ⟨_, List.mem_map.mpr ⟨k, mem_dedupFirst.mpr hk, rfl⟩, rfl⟩

/-- Helper: counting joined pairs whose opposing side is `tid` equals
counting the underlying event rows whose match joins and opposes `tid`. -/
theorem withOpp_filter_length (db : DB) (rows : List α) (mid tf : α → String) (tid : String) :
    ((withOpp db rows mid tf).filter (fun p => p.2 = tid)).length
      = (rows.filter (fun r => match joinMatch db (mid r) with
          | some m => decide (oppOf m (tf r) = tid)
          | none => false)).length := by
  induction rows with
  | nil => rfl
  | cons r rs ih =>
    simp only [withOpp, List.filterMap_cons] at ih ⊢
    cases hjm : joinMatch db (mid r) with
    | none => simp [hjm, List.filter_cons, ih]
    | some m =>
      by_cases ho : oppOf m (tf r) = tid <;>
        simp [hjm, List.filter_cons, ho, ih]

/-- Helper: the against direction of the un-windowed query is the ordered,
name-resolved global aggregation. -/
theorem core_global_snd (db : DB) (cat ft ob : String) :
    (get_team_stats_core db cat ft ob none).2 =
      ((globalAgg db cat ft).2.mergeSort (fun a b =>
        decide (sqlMetric ob b ≤ sqlMetric ob a))).map (structureRow db) := rfl

/-- Helper: category dispatch of the global branch, fouls. -/
theorem globalAgg_fouls (db : DB) (ft : String) :
    globalAgg db "fouls" ft =
      (aggRows db.player_match_details (fun x => x.team_id) (fun x => x.match_id)
        (fun x => x.fouls_committed),
       aggRows db.player_match_details (fun x => x.team_id) (fun x => x.match_id)
        (fun x => x.fouls_received)) := rfl

/-- Helper: category dispatch of the global branch, cards. -/
theorem globalAgg_cards (db : DB) (ft : String) :
    globalAgg db "cards" ft =
      (aggRows db.cards (fun x => x.team_id) (fun x => x.match_id) (fun _ => 1),
       aggRows (withOpp db db.cards (fun x => x.match_id) (fun x => x.team_id))
        (fun x => x.2) (fun x => x.1.match_id) (fun _ => 1)) := rfl

/-- Helper: category dispatch of the global branch, shots. -/
theorem globalAgg_shots (db : DB) (ft : String) :
    globalAgg db "shots" ft =
      (aggRows (db.shots.filter (shotFilter ft)) (fun x => x.team_id)
        (fun x => x.match_id) (fun _ => 1),
       aggRows (withOpp db (db.shots.filter (shotFilter ft)) (fun x => x.match_id)
        (fun x => x.team_id)) (fun x => x.2) (fun x => x.1.match_id) (fun _ => 1)) := rfl

/-- Helper: category dispatch of the global branch, headers. -/
theorem globalAgg_headers (db : DB) (ft : String) :
    globalAgg db "headers" ft =
      (aggRows (db.shots.filter (fun s => s.shot_type = "Header")) (fun x => x.team_id)
        (fun x => x.match_id) (fun _ => 1),
       aggRows (withOpp db (db.shots.filter (fun s => s.shot_type = "Header"))
        (fun x => x.match_id) (fun x => x.team_id)) (fun x => x.2)
        (fun x => x.1.match_id) (fun _ => 1)) := rfl

/-- Helper: for an event attributed to one of the two sides of a match with
distinct teams, "the other side is `tid`" is the same as "`tid` played the
match and the event's team is `tid`'s opponent". -/
theorem oppOf_cond_iff (m : MatchRow) (hne : m.id_home_team ≠ m.id_away_team)
    (ct tid : String) (hside : ct = m.id_home_team ∨ ct = m.id_away_team) :
    (oppOf m ct = tid) ↔
      ((m.id_home_team = tid ∨ m.id_away_team = tid) ∧ ct = oppOf m tid) := by
  unfold oppOf
  rcases hside with rfl | rfl
  · rw [if_pos rfl]
    constructor
    · rintro rfl
      exact ⟨Or.inr rfl, by rw [if_neg (fun hh => hne hh.symm)]⟩
    · rintro ⟨h1 | h1, hct⟩
      · subst h1
        rw [if_pos rfl] at hct
        exact (hne hct).elim
      · exact h1
  · rw [if_neg (fun hh => hne hh.symm)]
    constructor
    · rintro rfl
      exact ⟨Or.inl rfl, by rw [if_pos rfl]⟩
    · rintro ⟨h1 | h1, hct⟩
      · exact h1
      · subst h1
        rw [if_neg (fun hh => hne hh.symm)] at hct
        exact (hne hct.symm).elim

/-- Helper: under well-formed data the code's joined opponent count for
cards coincides with the spec's description. -/
theorem cards_against_spec (db : DB) (tid : String)
    (hteams : ∀ m ∈ db.«matches», m.id_home_team ≠ m.id_away_team)
    (hcards : ∀ c ∈ db.cards, ∀ m : MatchRow, joinMatch db c.match_id = some m →
      c.team_id = m.id_home_team ∨ c.team_id = m.id_away_team) :
    (((withOpp db db.cards (fun x => x.match_id) (fun x => x.team_id)).filter
      (fun p => p.2 = tid)).length : ℤ) = specAgainstCards db tid := by
  rw [withOpp_filter_length]
  unfold specAgainstCards
  congr 1
  congr 1
  apply List.filter_congr
  intro c hc
  cases hjm : joinMatch db c.match_id with
  | none => simp [hjm]
  | some m =>
    have hm : m ∈ db.«matches» := List.mem_of_find?_eq_some hjm
    have hne := hteams m hm
    have hside := hcards c hc m hjm
    simp only [hjm]
    simp only [← Bool.decide_or, ← Bool.decide_and, decide_eq_decide]
    exact oppOf_cond_iff m hne c.team_id tid hside

/-- Helper: under well-formed data the code's joined opponent count for a
filtered shot category coincides with the spec's description. -/
theorem shots_against_spec (db : DB) (pr : ShotRow → Bool) (tid : String)
    (hteams : ∀ m ∈ db.«matches», m.id_home_team ≠ m.id_away_team)
    (hshots : ∀ s ∈ db.shots, ∀ m : MatchRow, joinMatch db s.match_id = some m →
      s.team_id = m.id_home_team ∨ s.team_id = m.id_away_team) :
    (((withOpp db (db.shots.filter pr) (fun x => x.match_id) (fun x => x.team_id)).filter
      (fun p => p.2 = tid)).length : ℤ) = specAgainstShots db pr tid := by
  rw [withOpp_filter_length]
  unfold specAgainstShots
  congr 1
  congr 1
  rw [List.filter_filter]
  apply List.filter_congr
  intro s hs
  cases hjm : joinMatch db s.match_id with
  | none => simp [hjm]
  | some m =>
    have hm : m ∈ db.«matches» := List.mem_of_find?_eq_some hjm
    have hne := hteams m hm
    have hside := hshots s hs m hjm
    simp only [hjm]
    by_cases hpr : pr s = true
    · simp only [hpr, Bool.and_true, Bool.true_and]
      simp only [← Bool.decide_or, ← Bool.decide_and, decide_eq_decide]
      exact oppOf_cond_iff m hne s.team_id tid hside
    · simp only [Bool.not_eq_true] at hpr
      simp [hpr]

/-- C4, amended: for the shots, headers, and cards categories the `against`
direction joins each event to its match and attributes it to the other
side, which under well-formed data (distinct team ids per match, events
attributed to one of the two sides) equals the spec's "events by the
entity's opponent in the entity's matches"; for the fouls category,
however, the against total is the sum of `fouls_received` over the
entity's OWN player rows, with no join. -/
theorem C4_amended (db : DB) (ft ob tid : String)
    (hteams : ∀ m ∈ db.«matches», m.id_home_team ≠ m.id_away_team)
    (hshots : ∀ s ∈ db.shots, ∀ m : MatchRow, joinMatch db s.match_id = some m →
      s.team_id = m.id_home_team ∨ s.team_id = m.id_away_team)
    (hcards : ∀ c ∈ db.cards, ∀ m : MatchRow, joinMatch db c.match_id = some m →
      c.team_id = m.id_home_team ∨ c.team_id = m.id_away_team) :
    (∀ e ∈ (get_team_stats_core db "shots" ft ob none).2, e.id = tid →
      e.total = specAgainstShots db (shotFilter ft) tid) ∧
    (∀ e ∈ (get_team_stats_core db "headers" ft ob none).2, e.id = tid →
      e.total = specAgainstShots db (fun s => s.shot_type = "Header") tid) ∧
    (∀ e ∈ (get_team_stats_core db "cards" ft ob none).2, e.id = tid →
      e.total = specAgainstCards db tid) ∧
    (∀ e ∈ (get_team_stats_core db "fouls" ft ob none).2, e.id = tid →
      e.total = ((db.player_match_details.filter (fun p => p.team_id = tid)).map
        (fun p => p.fouls_received)).sum) ∧
    (tid ∈ db.player_match_details.map (fun p => p.team_id) →
      ∃ e ∈ (get_team_stats_core db "fouls" ft ob none).2, e.id = tid ∧
        e.total = ((db.player_match_details.filter (fun p => p.team_id = tid)).map
          (fun p => p.fouls_received)).sum) := by
  refine ⟨?_, ?_, ?_, ?_, ?_⟩
  · intro e he hid
    rw [core_global_snd, globalAgg_shots] at he
    obtain ⟨t, ht, rfl⟩ := List.mem_map.mp he
    rw [List.mem_mergeSort] at ht
    have hid' : t.1 = tid := hid
    have htot := aggRows_total_of_mem _ _ _ _ t ht
    show t.2.1 = _
    rw [htot, hid', sum_map_one,
      shots_against_spec db (shotFilter ft) tid hteams hshots]
  · intro e he hid
    rw [core_global_snd, globalAgg_headers] at he
    obtain ⟨t, ht, rfl⟩ := List.mem_map.mp he
    rw [List.mem_mergeSort] at ht
    have hid' : t.1 = tid := hid
    have htot := aggRows_total_of_mem _ _ _ _ t ht
    show t.2.1 = _
    rw [htot, hid', sum_map_one,
      shots_against_spec db (fun s => s.shot_type = "Header") tid hteams hshots]
  · intro e he hid
    rw [core_global_snd, globalAgg_cards] at he
    obtain ⟨t, ht, rfl⟩ := List.mem_map.mp he
    rw [List.mem_mergeSort] at ht
    have hid' : t.1 = tid := hid
    have htot := aggRows_total_of_mem _ _ _ _ t ht
    show t.2.1 = _
    rw [htot, hid', sum_map_one, cards_against_spec db tid hteams hcards]
  · intro e he hid
    rw [core_global_snd, globalAgg_fouls] at he
    obtain ⟨t, ht, rfl⟩ := List.mem_map.mp he
    rw [List.mem_mergeSort] at ht
    have hid' : t.1 = tid := hid
    have htot := aggRows_total_of_mem _ _ _ _ t ht
    show t.2.1 = _
    rw [htot, hid']
  · intro hfm
    obtain ⟨t, ht, htid⟩ := aggRows_exists db.player_match_details
      (fun x => x.team_id) (fun x => x.match_id) (fun x => x.fouls_received) tid hfm
    refine ⟨structureRow db t, ?_, htid, ?_⟩
    · rw [core_global_snd, globalAgg_fouls]
      exact List.mem_map.mpr ⟨t, List.mem_mergeSort.mpr ht, rfl⟩
    · have htot := aggRows_total_of_mem _ _ _ _ t ht
      show t.2.1 = _
      rw [htot, htid]

/-- C4, witness: the amended description instantiated on the concrete
database `c4DB`. -/
theorem C4_amended_witness :
    (∀ e ∈ (get_team_stats_core c4DB "cards" "all" "total" none).2, e.id = "X" →
      e.total = specAgainstCards c4DB "X") ∧
    (∃ e ∈ (get_team_stats_core c4DB "fouls" "all" "total" none).2, e.id = "X" ∧
      e.total = ((c4DB.player_match_details.filter (fun p => p.team_id = "X")).map
        (fun p => p.fouls_received)).sum) := by
  have T := C4_amended c4DB "all" "total" "X"
    (by intro m hm; fin_cases hm; decide)
    (by intro s hs; simp [c4DB] at hs)
    (by
      intro c hc m hm
      fin_cases hc
      simp only [c4DB, joinMatch, List.find?] at hm
      simp at hm
      subst hm
      simp)
  exact ⟨T.2.2.1, T.2.2.2.2 (by decide)⟩

set_option maxHeartbeats 1000000 in
theorem month_day_reconstruct (r4 mo pre M D l : ℤ)
    (hl : l = 0 ∨ l = 1)
    (h0 : 0 ≤ r4) (h1 : r4 < 365)
    (hmo : mo = (r4 + 50) / 32)
    (hpre : pre = daysBeforeMonth mo + (if 2 < mo then l else 0))
    (hM : M = if r4 < pre then mo - 1 else mo)
    (hD : D = if r4 < pre then
        r4 - (pre - (daysInMonthTbl (mo - 1) + (if mo - 1 = 2 then l else 0))) + 1
      else r4 - pre + 1) :
    daysBeforeMonth M + (if 2 < M then l else 0) + D = r4 + 1 ∧
    1 ≤ M ∧ M ≤ 12 ∧ 1 ≤ D ∧
    D ≤ daysInMonthTbl M + (if M = 2 then l else 0) := by
  subst hpre
  have hmb1 : 1 ≤ mo := by omega
  have hmb2 : mo ≤ 12 := by omega
  have hmrel : 32 * mo ≤ r4 + 50 ∧ r4 + 50 < 32 * mo + 32 := by omega
  clear hmo
  interval_cases mo <;>
  · norm_num [daysBeforeMonth, daysInMonthTbl] at hM hD
    split_ifs at hM hD <;>
    · subst hM; subst hD
      norm_num [daysBeforeMonth, daysInMonthTbl]
      omega

set_option maxHeartbeats 2000000 in
theorem ord2ymd_spec (n : ℤ) (hn : 1 ≤ n) :
    toordinal (ord2ymd n).1 (ord2ymd n).2.1 (ord2ymd n).2.2 = n ∧
    1 ≤ (ord2ymd n).2.1 ∧ (ord2ymd n).2.1 ≤ 12 ∧
    1 ≤ (ord2ymd n).2.2 ∧
    (ord2ymd n).2.2 ≤ daysInMonth (ord2ymd n).1 (ord2ymd n).2.1 ∧
    1 ≤ (ord2ymd n).1 := by
  unfold ord2ymd
  simp only []
  set n400 := (n - 1) / 146097 with h400def
  set r1 := (n - 1) % 146097 with hr1def
  set n100 := r1 / 36524 with h100def
  set r2 := r1 % 36524 with hr2def
  set n4 := r2 / 1461 with h4def
  set r3 := r2 % 1461 with hr3def
  set n1 := r3 / 365 with h1def
  set r4 := r3 % 365 with hr4def
  have f1 : n - 1 = 146097 * n400 + r1 := by omega
  have f2 : 0 ≤ r1 ∧ r1 < 146097 := by constructor <;> omega
  have f3 : r1 = 36524 * n100 + r2 := by omega
  have f4 : 0 ≤ r2 ∧ r2 < 36524 := by constructor <;> omega
  have f5 : 0 ≤ n100 ∧ n100 ≤ 4 := by constructor <;> omega
  have f6 : r2 = 1461 * n4 + r3 := by omega
  have f7 : 0 ≤ r3 ∧ r3 < 1461 := by constructor <;> omega
  have f8 : 0 ≤ n4 ∧ n4 ≤ 24 := by constructor <;> omega
  have f9 : r3 = 365 * n1 + r4 := by omega
  have f10 : 0 ≤ r4 ∧ r4 < 365 := by constructor <;> omega
  have f11 : 0 ≤ n1 ∧ n1 ≤ 4 := by constructor <;> omega
  have f12 : 0 ≤ n400 := by omega
  clear_value n400 r1 n100 r2 n4 r3 n1 r4
  clear h400def hr1def h100def hr2def h4def hr3def h1def hr4def
  by_cases hsp : n1 = 4 ∨ n100 = 4
  · rw [if_pos hsp]
    dsimp only []
    simp only [toordinal, daysBeforeYear, daysBeforeMonth, daysInMonth,
      daysInMonthTbl, isLeap, Bool.and_eq_true, Bool.or_eq_true,
      decide_eq_true_eq, ne_eq]
    norm_num
    rcases hsp with h4eq | h100eq
    · subst h4eq
      have hn100 : n100 ≤ 3 := by omega
      have hn4 : n4 ≤ 23 := by omega
      have g4 : (n400 * 400 + 1 + n100 * 100 + n4 * 4 + 4 - 1 - 1) / 4
          = n400 * 100 + n100 * 25 + n4 := by omega
      have g100 : (n400 * 400 + 1 + n100 * 100 + n4 * 4 + 4 - 1 - 1) / 100
          = n400 * 4 + n100 := by omega
      have g400 : (n400 * 400 + 1 + n100 * 100 + n4 * 4 + 4 - 1 - 1) / 400
          = n400 := by omega
      rw [g4, g100, g400]
      split_ifs with hl <;> omega
    · have hr10 : r1 = 146096 := by omega
      have hn4z : n4 = 0 := by omega
      have hn1z : n1 = 0 := by omega
      subst h100eq; subst hn4z; subst hn1z
      have g4 : (n400 * 400 + 1 + 4 * 100 + 0 * 4 + 0 - 1 - 1) / 4
          = n400 * 100 + 99 := by omega
      have g100 : (n400 * 400 + 1 + 4 * 100 + 0 * 4 + 0 - 1 - 1) / 100
          = n400 * 4 + 3 := by omega
      have g400 : (n400 * 400 + 1 + 4 * 100 + 0 * 4 + 0 - 1 - 1) / 400
          = n400 := by omega
      rw [g4, g100, g400]
      split_ifs with hl <;> omega
  · rw [if_neg hsp]
    have hb1 : n1 ≤ 3 := by omega
    have hb2 : n100 ≤ 3 := by omega
    set yr := n400 * 400 + 1 + n100 * 100 + n4 * 4 + n1 with hyrdef
    set l : ℤ := if n1 = 3 ∧ (n4 ≠ 24 ∨ n100 = 3) then 1 else 0 with hldef
    have hl : l = 0 ∨ l = 1 := by rw [hldef]; split_ifs <;> simp
    set mo := (r4 + 50) / 32 with hmodef
    have hiso : (isLeap yr = true) ↔ (n1 = 3 ∧ (n4 ≠ 24 ∨ n100 = 3)) := by
      simp only [isLeap, Bool.and_eq_true, Bool.or_eq_true, decide_eq_true_eq,
        ne_eq, Bool.not_eq_true, decide_eq_false_iff_not]
      omega
    have e1 : (if 2 < mo ∧ (n1 = 3 ∧ (n4 ≠ 24 ∨ n100 = 3)) then (1 : ℤ) else 0)
        = (if 2 < mo then l else 0) := by
      by_cases hp : n1 = 3 ∧ (n4 ≠ 24 ∨ n100 = 3)
      · have hl1 : l = 1 := by rw [hldef, if_pos hp]
        rw [hl1, if_congr (and_iff_left hp) rfl rfl]
      · have hl0 : l = 0 := by rw [hldef, if_neg hp]
        rw [hl0, if_neg (fun hcon => hp hcon.2), ite_self]
    have e2 : (if mo - 1 = 2 ∧ (n1 = 3 ∧ (n4 ≠ 24 ∨ n100 = 3)) then (1 : ℤ) else 0)
        = (if mo - 1 = 2 then l else 0) := by
      by_cases hp : n1 = 3 ∧ (n4 ≠ 24 ∨ n100 = 3)
      · have hl1 : l = 1 := by rw [hldef, if_pos hp]
        rw [hl1, if_congr (and_iff_left hp) rfl rfl]
      · have hl0 : l = 0 := by rw [hldef, if_neg hp]
        rw [hl0, if_neg (fun hcon => hp hcon.2), ite_self]
    simp only [e1, e2]
    set pre := daysBeforeMonth mo + (if 2 < mo then l else 0) with hpredef
    have e3g : ∀ m : ℤ, (if 2 < m ∧ isLeap yr = true then (1 : ℤ) else 0)
        = (if 2 < m then l else 0) := by
      intro m
      by_cases hp : n1 = 3 ∧ (n4 ≠ 24 ∨ n100 = 3)
      · have hbt : isLeap yr = true := hiso.mpr hp
        have hl1 : l = 1 := by rw [hldef, if_pos hp]
        rw [hbt, hl1]
        simp
      · have hbf : isLeap yr = false := by
          cases hb : isLeap yr
          · rfl
          · exact absurd (hiso.mp hb) hp
        have hl0 : l = 0 := by rw [hldef, if_neg hp]
        rw [hbf, hl0]
        simp
    have e4g : ∀ m : ℤ, daysInMonth yr m = daysInMonthTbl m + (if m = 2 then l else 0) := by
      intro m
      by_cases hq : m = 2
      · subst hq
        by_cases hp : n1 = 3 ∧ (n4 ≠ 24 ∨ n100 = 3)
        · have hbt : isLeap yr = true := hiso.mpr hp
          have hl1 : l = 1 := by rw [hldef, if_pos hp]
          simp only [daysInMonth]
          rw [hbt, hl1]
          norm_num [daysInMonthTbl]
        · have hbf : isLeap yr = false := by
            cases hb : isLeap yr
            · rfl
            · exact absurd (hiso.mp hb) hp
          have hl0 : l = 0 := by rw [hldef, if_neg hp]
          simp only [daysInMonth]
          rw [hbf, hl0]
          norm_num [daysInMonthTbl]
      · simp only [daysInMonth]
        simp [hq]
    have hg4 : (yr - 1) / 4 = n400 * 100 + n100 * 25 + n4 := by omega
    have hg100 : (yr - 1) / 100 = n400 * 4 + n100 := by omega
    have hg400 : (yr - 1) / 400 = n400 := by omega
    by_cases hc : r4 < pre
    · rw [if_pos hc]
      dsimp only []
      obtain ⟨hsum, hM1, hM2, hD1, hD2⟩ :=
        month_day_reconstruct r4 mo pre (mo - 1)
          (r4 - (pre - (daysInMonthTbl (mo - 1) + (if mo - 1 = 2 then l else 0))) + 1)
          l hl f10.1 f10.2 hmodef hpredef
          (by rw [if_pos hc]) (by rw [if_pos hc])
      simp only [toordinal, daysBeforeYear, e3g, e4g]
      rw [hg4, hg100, hg400]
      omega
    · rw [if_neg hc]
      dsimp only []
      obtain ⟨hsum, hM1, hM2, hD1, hD2⟩ :=
        month_day_reconstruct r4 mo pre mo (r4 - pre + 1)
          l hl f10.1 f10.2 hmodef hpredef
          (by rw [if_neg hc]) (by rw [if_neg hc])
      simp only [toordinal, daysBeforeYear, e3g, e4g]
      rw [hg4, hg100, hg400]
      omega

/-- Helper: the `_DAYS_BEFORE_MONTH` values all lie in `[0, 334]`. -/
theorem daysBeforeMonth_bounds (m : ℤ) :
    0 ≤ daysBeforeMonth m ∧ daysBeforeMonth m ≤ 334 := by
  unfold daysBeforeMonth
  omega

/-- Helper: `_days_in_month` never exceeds 31. -/
theorem daysInMonth_le (y m : ℤ) : daysInMonth y m ≤ 31 := by
  unfold daysInMonth daysInMonthTbl
  split_ifs <;> omega

/-- Helper: a valid civil date of year at most 9999 has ordinal at most
`3652059` (the ordinal of `9999-12-31`). -/
theorem toordinal_ub (y m d : ℤ) (hm1 : 1 ≤ m) (hm2 : m ≤ 12) (hd1 : 1 ≤ d)
    (hd2 : d ≤ daysInMonth y m) (hy : y ≤ 9999) :
    toordinal y m d ≤ 3652059 := by
  have hdim : d ≤ 31 := le_trans hd2 (daysInMonth_le y m)
  have hdbm := daysBeforeMonth_bounds m
  unfold toordinal daysBeforeYear
  split_ifs with hI
  · have := hI.2
    simp only [isLeap, Bool.and_eq_true, Bool.or_eq_true, decide_eq_true_eq,
      ne_eq, Bool.not_eq_true, decide_eq_false_iff_not] at this
    omega
  · omega

/-- Helper: a positive ordinal at most `3652059` belongs to a year at most
9999. -/
theorem toordinal_year_ub (y m d N : ℤ) (h : toordinal y m d = N)
    (hm1 : 1 ≤ m) (hm2 : m ≤ 12) (hd : 1 ≤ d) (hN : N ≤ 3652059) :
    y ≤ 9999 := by
  have hdbm := daysBeforeMonth_bounds m
  unfold toordinal daysBeforeYear at h
  have hite : (0 : ℤ) ≤ if 2 < m ∧ isLeap y then 1 else 0 := by
    split_ifs <;> norm_num
  omega

/-- Helper: seconds-timeline roundtrip of `dtFromSeconds` for instants at or
after `0001-01-01 00:00:00` (ordinal day 1), with the field ranges CPython
guarantees. -/
theorem dtFromSeconds_roundtrip (t : ℤ) (ht : 86400 ≤ t) :
    dtToSeconds (dtFromSeconds t) = t ∧
    toordinal (dtFromSeconds t).year (dtFromSeconds t).month (dtFromSeconds t).day
      = t / 86400 ∧
    1 ≤ (dtFromSeconds t).year ∧
    1 ≤ (dtFromSeconds t).month ∧ (dtFromSeconds t).month ≤ 12 ∧
    1 ≤ (dtFromSeconds t).day ∧
    (dtFromSeconds t).day ≤ daysInMonth (dtFromSeconds t).year (dtFromSeconds t).month ∧
    0 ≤ (dtFromSeconds t).hour ∧ (dtFromSeconds t).hour ≤ 23 ∧
    0 ≤ (dtFromSeconds t).minute ∧ (dtFromSeconds t).minute ≤ 59 ∧
    0 ≤ (dtFromSeconds t).second ∧ (dtFromSeconds t).second ≤ 59 := by
  have hd1 : 1 ≤ t / 86400 := by omega
  obtain ⟨hord, hm1, hm2, hdd1, hdd2, hy1⟩ := ord2ymd_spec (t / 86400) hd1
  unfold dtFromSeconds
  simp only []
  unfold dtToSeconds
  dsimp only []
  refine ⟨?_, hord, hy1, hm1, hm2, hdd1, hdd2, ?_, ?_, ?_, ?_, ?_, ?_⟩
  · rw [hord]
    omega
  all_goals omega

/-- Helper: reading back the decimal digit character of `n` in `0..9`. -/
theorem digitVal_digitChar (n : ℤ) (h0 : 0 ≤ n) (h9 : n ≤ 9) :
    digitVal (digitChar n) = some n := by
  interval_cases n <;> decide

/-- Helper: a parsed digit lies in `0..9`. -/
theorem digitVal_bounds (c : Char) (x : ℤ) (h : digitVal c = some x) :
    0 ≤ x ∧ x ≤ 9 := by
  unfold digitVal at h
  split_ifs at h with hd
  · injection h with h
    subst h
    simp only [Char.isDigit, Bool.and_eq_true, decide_eq_true_eq] at hd
    obtain ⟨h1, h2⟩ := hd
    have h1' : (48 : UInt32).toNat ≤ c.val.toNat := h1
    have h2' : c.val.toNat ≤ (57 : UInt32).toNat := h2
    have hcv : c.toNat = c.val.toNat := rfl
    have h48 : (48 : UInt32).toNat = 48 := rfl
    have h57 : (57 : UInt32).toNat = 57 := rfl
    rw [h48] at h1'
    rw [h57] at h2'
    rw [hcv]
    omega

/-- Helper: two-digit rendering reads back. -/
theorem num2_pad2 (n : ℤ) (h0 : 0 ≤ n) (h99 : n ≤ 99) :
    num2 (digitChar (n / 10)) (digitChar (n % 10)) = some n := by
  have ha : digitVal (digitChar (n / 10)) = some (n / 10) :=
    digitVal_digitChar _ (by omega) (by omega)
  have hb : digitVal (digitChar (n % 10)) = some (n % 10) :=
    digitVal_digitChar _ (by omega) (by omega)
  unfold num2
  rw [ha, hb]
  simp only [Option.some.injEq]
  omega

/-- Helper: four-digit rendering reads back. -/
theorem num4_pad4 (n : ℤ) (h0 : 0 ≤ n) (h : n ≤ 9999) :
    num4 (digitChar (n / 1000)) (digitChar (n / 100 % 10))
      (digitChar (n / 10 % 10)) (digitChar (n % 10)) = some n := by
  have ha : digitVal (digitChar (n / 1000)) = some (n / 1000) :=
    digitVal_digitChar _ (by omega) (by omega)
  have hb : digitVal (digitChar (n / 100 % 10)) = some (n / 100 % 10) :=
    digitVal_digitChar _ (by omega) (by omega)
  have hc : digitVal (digitChar (n / 10 % 10)) = some (n / 10 % 10) :=
    digitVal_digitChar _ (by omega) (by omega)
  have hd : digitVal (digitChar (n % 10)) = some (n % 10) :=
    digitVal_digitChar _ (by omega) (by omega)
  unfold num4 num2
  rw [ha, hb, hc, hd]
  simp only [Option.some.injEq]
  omega

/-- Helper: three-digit rendering reads back. -/
theorem num3_pad3 (n : ℤ) (h0 : 0 ≤ n) (h : n ≤ 999) :
    num3 (digitChar (n / 100)) (digitChar (n / 10 % 10)) (digitChar (n % 10))
      = some n := by
  have ha : digitVal (digitChar (n / 100)) = some (n / 100) :=
    digitVal_digitChar _ (by omega) (by omega)
  have hb1 : digitVal (digitChar (n / 10 % 10)) = some (n / 10 % 10) :=
    digitVal_digitChar _ (by omega) (by omega)
  have hb2 : digitVal (digitChar (n % 10)) = some (n % 10) :=
    digitVal_digitChar _ (by omega) (by omega)
  unfold num3 num2
  rw [ha, hb1, hb2]
  simp only [Option.some.injEq]
  omega

/-- Helper: a digit character is never the dash. -/
theorem digitChar_ne_dash (n : ℤ) (h0 : 0 ≤ n) (h9 : n ≤ 9) :
    ¬ (digitChar n = '-') := by
  interval_cases n <;> decide

/-- Helper: a successfully parsed timestamp has the `datetime`-constructor
field ranges (the validation gate of `pyFromIso`). -/
theorem pyFromIso_bounds (s : String) (dt : PyDateTime) (h : pyFromIso s = some dt) :
    1 ≤ dt.year ∧ dt.year ≤ 9999 ∧ 1 ≤ dt.month ∧ dt.month ≤ 12 ∧
    1 ≤ dt.day ∧ dt.day ≤ daysInMonth dt.year dt.month ∧
    0 ≤ dt.hour ∧ dt.hour ≤ 23 ∧ 0 ≤ dt.minute ∧ dt.minute ≤ 59 ∧
    0 ≤ dt.second ∧ dt.second ≤ 59 := by
  unfold pyFromIso at h
  split at h
  · exact absurd h (by simp)
  · split_ifs at h with hok
    injection h with h
    subst h
    exact hok

/-- Helper: the fixed-tail reader on a list of the exact output tail shape. -/
theorem readFixedTail_shape (yv : Option ℤ) (mo1 mo0 d1 d0 h1 h0 mi1 mi0 s1 s0 : Char) :
    readFixedTail yv ['-', mo1, mo0, '-', d1, d0, ' ', h1, h0, ':', mi1, mi0, ':', s1, s0]
      = readYMDHMS yv mo1 mo0 d1 d0 h1 h0 mi1 mi0 s1 s0 := rfl

/-- Helper: the reader on a one-digit-year output shape. -/
theorem specRead_w1 (c1 mo1 mo0 d1 d0 h1 h0 mi1 mi0 s1 s0 : Char) :
    specReadYmdHms ⟨[c1, '-', mo1, mo0, '-', d1, d0, ' ',
        h1, h0, ':', mi1, mi0, ':', s1, s0]⟩
      = readYMDHMS (digitVal c1) mo1 mo0 d1 d0 h1 h0 mi1 mi0 s1 s0 := rfl

/-- Helper: the reader on a two-digit-year output shape. -/
theorem specRead_w2 (c1 c2 mo1 mo0 d1 d0 h1 h0 mi1 mi0 s1 s0 : Char)
    (h2 : ¬ (c2 = '-')) :
    specReadYmdHms ⟨[c1, c2, '-', mo1, mo0, '-', d1, d0, ' ',
        h1, h0, ':', mi1, mi0, ':', s1, s0]⟩
      = readYMDHMS (num2 c1 c2) mo1 mo0 d1 d0 h1 h0 mi1 mi0 s1 s0 := by
  simp only [specReadYmdHms]
  rw [if_neg h2]
  simp only [if_true]
  exact readFixedTail_shape _ _ _ _ _ _ _ _ _ _ _

/-- Helper: the reader on a three-digit-year output shape. -/
theorem specRead_w3 (c1 c2 c3 mo1 mo0 d1 d0 h1 h0 mi1 mi0 s1 s0 : Char)
    (h2 : ¬ (c2 = '-')) (h3 : ¬ (c3 = '-')) :
    specReadYmdHms ⟨[c1, c2, c3, '-', mo1, mo0, '-', d1, d0, ' ',
        h1, h0, ':', mi1, mi0, ':', s1, s0]⟩
      = readYMDHMS (num3 c1 c2 c3) mo1 mo0 d1 d0 h1 h0 mi1 mi0 s1 s0 := by
  simp only [specReadYmdHms]
  rw [if_neg h2, if_neg h3]
  simp only [if_true]
  exact readFixedTail_shape _ _ _ _ _ _ _ _ _ _ _

/-- Helper: the reader on a four-digit-year output shape. -/
theorem specRead_w4 (c1 c2 c3 c4 mo1 mo0 d1 d0 h1 h0 mi1 mi0 s1 s0 : Char)
    (h2 : ¬ (c2 = '-')) (h3 : ¬ (c3 = '-')) (h4 : ¬ (c4 = '-')) :
    specReadYmdHms ⟨[c1, c2, c3, c4, '-', mo1, mo0, '-', d1, d0, ' ',
        h1, h0, ':', mi1, mi0, ':', s1, s0]⟩
      = readYMDHMS (num4 c1 c2 c3 c4) mo1 mo0 d1 d0 h1 h0 mi1 mi0 s1 s0 := by
  simp only [specReadYmdHms]
  rw [if_neg h2, if_neg h3, if_neg h4]
  exact readFixedTail_shape _ _ _ _ _ _ _ _ _ _ _

/-- Helper: a formatted timestamp with in-range fields is read back by the
output-format reader as the instant it came from, for every year width the
unpadded `%Y` can produce. -/
theorem specRead_strftime (dt : PyDateTime)
    (hy1 : 1 ≤ dt.year) (hy2 : dt.year ≤ 9999)
    (hmo1 : 1 ≤ dt.month) (hmo2 : dt.month ≤ 12)
    (hd1 : 1 ≤ dt.day) (hd2 : dt.day ≤ daysInMonth dt.year dt.month)
    (hh0 : 0 ≤ dt.hour) (hh1 : dt.hour ≤ 23)
    (hmi0 : 0 ≤ dt.minute) (hmi1 : dt.minute ≤ 59)
    (hs0 : 0 ≤ dt.second) (hs1 : dt.second ≤ 59) :
    specReadYmdHms (strftimeYmdHms dt) = some (dtToSeconds dt) := by
  obtain ⟨y, mo, d, hh, mi, sec⟩ := dt
  dsimp only [] at hy1 hy2 hmo1 hmo2 hd1 hd2 hh0 hh1 hmi0 hmi1 hs0 hs1
  have hmoE : num2 (digitChar (mo / 10)) (digitChar (mo % 10)) = some mo :=
    num2_pad2 mo (by omega) (by omega)
  have hdE : num2 (digitChar (d / 10)) (digitChar (d % 10)) = some d := by
    have : d ≤ 31 := le_trans hd2 (daysInMonth_le y mo)
    exact num2_pad2 d (by omega) (by omega)
  have hhE : num2 (digitChar (hh / 10)) (digitChar (hh % 10)) = some hh :=
    num2_pad2 hh (by omega) (by omega)
  have hmiE : num2 (digitChar (mi / 10)) (digitChar (mi % 10)) = some mi :=
    num2_pad2 mi (by omega) (by omega)
  have hsE : num2 (digitChar (sec / 10)) (digitChar (sec % 10)) = some sec :=
    num2_pad2 sec (by omega) (by omega)
  have hvalid : (1 : ℤ) ≤ y ∧ 1 ≤ mo ∧ mo ≤ 12 ∧ 1 ≤ d ∧ d ≤ daysInMonth y mo ∧
      0 ≤ hh ∧ hh ≤ 23 ∧ 0 ≤ mi ∧ mi ≤ 59 ∧ 0 ≤ sec ∧ sec ≤ 59 :=
    ⟨hy1, hmo1, hmo2, hd1, hd2, hh0, hh1, hmi0, hmi1, hs0, hs1⟩
  unfold strftimeYmdHms pad2 pyYearChars
  by_cases hw1 : y < 10
  · rw [if_pos hw1]
    dsimp only [List.cons_append, List.nil_append]
    rw [specRead_w1]
    unfold readYMDHMS
    rw [digitVal_digitChar y (by omega) (by omega), hmoE, hdE, hhE, hmiE, hsE]
    simp only []
    rw [if_pos hvalid]
    rfl
  · rw [if_neg hw1]
    by_cases hw2 : y < 100
    · rw [if_pos hw2]
      dsimp only [List.cons_append, List.nil_append]
      rw [specRead_w2 _ _ _ _ _ _ _ _ _ _ _ _
          (digitChar_ne_dash _ (by omega) (by omega))]
      unfold readYMDHMS
      rw [num2_pad2 y (by omega) (by omega), hmoE, hdE, hhE, hmiE, hsE]
      simp only []
      rw [if_pos hvalid]
      rfl
    · rw [if_neg hw2]
      by_cases hw3 : y < 1000
      · rw [if_pos hw3]
        dsimp only [List.cons_append, List.nil_append]
        rw [specRead_w3 _ _ _ _ _ _ _ _ _ _ _ _ _
            (digitChar_ne_dash _ (by omega) (by omega))
            (digitChar_ne_dash _ (by omega) (by omega))]
        unfold readYMDHMS
        rw [num3_pad3 y (by omega) (by omega), hmoE, hdE, hhE, hmiE, hsE]
        simp only []
        rw [if_pos hvalid]
        rfl
      · rw [if_neg hw3]
        dsimp only [List.cons_append, List.nil_append]
        rw [specRead_w4 _ _ _ _ _ _ _ _ _ _ _ _ _ _
            (digitChar_ne_dash _ (by omega) (by omega))
            (digitChar_ne_dash _ (by omega) (by omega))
            (digitChar_ne_dash _ (by omega) (by omega))]
        unfold readYMDHMS
        rw [num4_pad4 y (by omega) (by omega), hmoE, hdE, hhE, hmiE, hsE]
        simp only []
        rw [if_pos hvalid]
        rfl

/-- C9, counterexample: `0001-01-01T01:00:00Z` is parseable (it parses to
01:00 on the first representable day), yet `adjust_utc_to_arg` returns the
input unchanged — the 3-hour subtraction underflows `datetime.min` and the
bare `except:` swallows the `OverflowError` — so the output does not denote
the instant three hours earlier in the output format. -/
theorem C9_counterexample :
    pyFromIso (pyReplaceZ "0001-01-01T01:00:00Z") =
      some { year := 1, month := 1, day := 1, hour := 1, minute := 0, second := 0 } ∧
    adjust_utc_to_arg "0001-01-01T01:00:00Z" = "0001-01-01T01:00:00Z" ∧
    specReadYmdHms (adjust_utc_to_arg "0001-01-01T01:00:00Z") ≠
      some (dtToSeconds { year := 1, month := 1, day := 1, hour := 1, minute := 0, second := 0 }
        - 10800) := by
  refine ⟨?_, ?_, ?_⟩ <;> decide

/-- C9, amended: the kickoff normalization returns its input unchanged when
the cleaned input does not parse AND when the 3-hour subtraction underflows
the first representable day; in every other case it returns exactly the
instant three hours earlier, formatted `%Y-%m-%d %H:%M:%S` (witnessed by
the output-format reader recovering that instant). -/
theorem C9_amended (s : String) :
    (pyFromIso (pyReplaceZ s) = none → adjust_utc_to_arg s = s) ∧
    (∀ dt : PyDateTime, pyFromIso (pyReplaceZ s) = some dt →
      dtToSeconds dt - 10800 < 86400 → adjust_utc_to_arg s = s) ∧
    (∀ dt : PyDateTime, pyFromIso (pyReplaceZ s) = some dt →
      86400 ≤ dtToSeconds dt - 10800 →
      specReadYmdHms (adjust_utc_to_arg s) = some (dtToSeconds dt - 10800)) := by
  refine ⟨?_, ?_, ?_⟩
  · intro h
    simp only [adjust_utc_to_arg, h]
  · intro dt hp hlt
    simp only [adjust_utc_to_arg, hp]
    rw [if_pos hlt]
  · intro dt hp hge
    simp only [adjust_utc_to_arg, hp]
    rw [if_neg (by omega)]
    obtain ⟨hrt, hordQ, hy1, hm1, hm2, hdd1, hdd2, hhh0, hhh1, hmmi0, hmmi1, hss0, hss1⟩ :=
      dtFromSeconds_roundtrip (dtToSeconds dt - 10800) hge
    obtain ⟨py1, py2, pm1, pm2, pd1, pd2, ph0, ph1, pmi0, pmi1, ps0, ps1⟩ :=
      pyFromIso_bounds _ _ hp
    have htoUB : toordinal dt.year dt.month dt.day ≤ 3652059 :=
      toordinal_ub _ _ _ pm1 pm2 pd1 pd2 py2
    have htUB : dtToSeconds dt - 10800 ≤ 3652059 * 86400 + 86399 := by
      unfold dtToSeconds
      omega
    have hyUB : (dtFromSeconds (dtToSeconds dt - 10800)).year ≤ 9999 := by
      apply toordinal_year_ub _ _ _ _ hordQ hm1 hm2 hdd1
      omega
    rw [specRead_strftime _ hy1 hyUB hm1 hm2 hdd1 hdd2 hhh0 hhh1 hmmi0 hmmi1 hss0 hss1, hrt]

/-- C9, witness for the amended statement: `2025-03-01T18:00:00Z` parses,
does not underflow, and the adjusted output reads back as the instant three
hours earlier. -/
theorem C9_amended_witness :
    pyFromIso (pyReplaceZ "2025-03-01T18:00:00Z") =
      some { year := 2025, month := 3, day := 1, hour := 18, minute := 0, second := 0 } ∧
    86400 ≤ dtToSeconds { year := 2025, month := 3, day := 1, hour := 18, minute := 0, second := 0 }
      - 10800 ∧
    specReadYmdHms (adjust_utc_to_arg "2025-03-01T18:00:00Z") =
      some (dtToSeconds { year := 2025, month := 3, day := 1, hour := 18, minute := 0, second := 0 }
        - 10800) :=
  ⟨by decide, by decide,
    (C9_amended "2025-03-01T18:00:00Z").2.2
      { year := 2025, month := 3, day := 1, hour := 18, minute := 0, second := 0 }
      (by decide) (by decide)⟩
